import Mathlib

/-!
Formal model of the AgentFlow orchestrator (`src/workflow.py`, `src/models.py`,
`src/prompts.py`, `src/llm_client.py`).

The repository drives a single external chat-completion endpoint through a
fixed eight-stage pipeline and defensively parses the JSON each stage returns
into typed records.  The embedding below mirrors that response-coercion layer:

* JSON values returned by the model are the inductive `AgentFlow.Json`
  (Python's `json.loads` output: `None`/`bool`/`int`/`float`/`str`/`list`/`dict`);
  Python floats are modelled as exact rationals (`Rat`).
* Python's defensive coercions `str(...)`, `float(...)`, `dict.get`,
  iteration, and `.strip()` are modelled by `pyStr`, `pyFloat`, `jget`,
  `pyIterList` and `pyStrip`; a raised Python exception is the `Except`
  error value (`PyErr.attributeError` for `.get`/`.strip` on a value of the
  wrong type, `PyErr.valueError`/`PyErr.typeError` for `float(...)`, etc.).
* The external model client (`LLMClient.chat_json`) is a scripted
  collaborator: a list of canned JSON responses consumed in call order
  (`chat_json`).  The network transport, prompt text sent to it and
  `response_format` plumbing are the external boundary; the prompt builder
  relevant to the claims (`build_revision_worker_prompts`) is embedded in
  full below.
* File-system effects in `save_runlog` (`os.makedirs`, `open`/`write`) are
  external; the embedding returns the path that the function computes and
  returns plus the JSON document that `json.dump(runlog, default=...)`
  writes (`asdict` semantics, field order = dataclass field order).
-/

namespace AgentFlow

/-- A parsed JSON value, as produced by Python's `json.loads`: `null`, booleans,
numbers (Python keeps `int` and `float` distinct, and `str()` renders them
differently, so both constructors are kept; floats are exact rationals),
strings, arrays and objects. -/
inductive Json where
  | null : Json
  | bool (b : Bool) : Json
  | int (n : Int) : Json
  | float (q : Rat) : Json
  | str (s : String) : Json
  | arr (xs : List Json) : Json
  | obj (kvs : List (String × Json)) : Json

instance : Inhabited Json := ⟨Json.null⟩

/-- A JSON object payload (a Python `dict` after `json.loads`; keys unique,
last duplicate wins, which `jget` reproduces). -/
abbrev JObj := List (String × Json)

/-- `d.get(k)` on a Python dict built by `json.loads`: the value bound to `k`,
with a later binding shadowing an earlier one. -/
def jget : JObj → String → Option Json
  | [], _ => none
  | (k, v) :: rest, key =>
    match jget rest key with
    | some w => some w
    | none => if k = key then some v else none

/-- `d.get(k, default)`. -/
def jgetD (o : JObj) (k : String) (d : Json) : Json := (jget o k).getD d

/-- Exceptions the coercion layer can raise, by Python exception class:
`AttributeError` (`.get`/`.strip` on a non-dict/non-str), `ValueError`
(`float()` of a non-numeric string), `TypeError` (`float()` of `None`/list/dict,
or iterating a non-iterable), `KeyError` (`dict[k]` miss), `StopIteration`
(`next()` on an empty generator).  `emptyScript` models the scripted
collaborator having no further canned response (a real run would instead hit
the external transport). -/
inductive PyErr where
  | attributeError : PyErr
  | valueError : PyErr
  | typeError : PyErr
  | keyError : PyErr
  | stopIteration : PyErr
  | emptyScript : PyErr
deriving DecidableEq

/-- Decimal digits of the fractional part `num/den`, most significant first;
`fuel` bounds the expansion (ample for every value the pipeline produces,
which all come from finite decimal literals). -/
def fracDigitList (den : Nat) : Nat → Nat → List Nat
  | 0, _ => []
  | _ + 1, 0 => []
  | fuel + 1, num => (num * 10 / den) :: fracDigitList den fuel (num * 10 % den)

/-- Rendering of a Python float (here an exact rational) as decimal text,
e.g. `5.0`, `-2.25`.  Abstracts CPython's shortest-round-trip `repr` but agrees
with it on the finite decimal values the pipeline handles. -/
def ratDecimal (q : Rat) : String :=
  let sign := if q.num < 0 then "-" else ""
  let n := q.num.natAbs
  let ip := n / q.den
  let fr := n % q.den
  if fr = 0 then sign ++ toString ip ++ ".0"
  else
    sign ++ toString ip ++ "." ++
      String.join ((fracDigitList q.den 40 fr).map (fun d => toString d))

mutual
/-- Python `repr` of a JSON value (`None`, `True`, digits, quoted strings,
`[...]`, `{...}`).  For strings the quoting elides CPython's escape rules,
which no coerced field depends on. -/
def pyRepr : Json → String
  | .null => "None"
  | .bool true => "True"
  | .bool false => "False"
  | .int n => toString n
  | .float q => ratDecimal q
  | .str s => "'" ++ s ++ "'"
  | .arr xs => "[" ++ String.intercalate ", " (pyReprList xs) ++ "]"
  | .obj kvs => "\x7b" ++ String.intercalate ", " (pyReprObj kvs) ++ "\x7d"

def pyReprList : List Json → List String
  | [] => []
  | x :: xs => pyRepr x :: pyReprList xs

def pyReprObj : List (String × Json) → List String
  | [] => []
  | (k, v) :: kvs => ("'" ++ k ++ "': " ++ pyRepr v) :: pyReprObj kvs
end

/-- Python `str(x)` for a `json.loads` value: the string itself for `str`,
otherwise `repr`.  Total — string coercion never raises. -/
def pyStr : Json → String
  | .str s => s
  | v => pyRepr v

/-- Leading and trailing whitespace removed from a character list. -/
def stripChars (cs : List Char) : List Char :=
  ((cs.dropWhile Char.isWhitespace).reverse.dropWhile Char.isWhitespace).reverse

/-- Python `str.strip()` (leading/trailing whitespace removed). -/
def pyStrip (s : String) : String := String.mk (stripChars s.data)

/-- Digit characters to the natural number they denote. -/
def digitsToNat (ds : List Char) : Nat :=
  ds.foldl (fun a c => a * 10 + (c.toNat - 48)) 0

/-- Unsigned decimal numeral accepted by Python's `float()`: `7`, `7.`, `.5`,
`7.5`.  (`float()` also accepts exponents, `inf`/`nan` and `_` separators,
which no claim exercises; on those this model is conservative.) -/
def parseUnsignedDec (cs : List Char) : Option Rat :=
  let (ds, r1) := cs.span (·.isDigit)
  match r1 with
  | [] => if ds.isEmpty then none else some ((digitsToNat ds : Nat) : Rat)
  | '.' :: r2 =>
    let (fs, r3) := r2.span (·.isDigit)
    if r3.isEmpty then
      if ds.isEmpty && fs.isEmpty then none
      else some (((digitsToNat ds : Nat) : Rat) +
                 ((digitsToNat fs : Nat) : Rat) / ((10 : Rat) ^ fs.length))
    else none
  | _ => none

/-- Python `float(s)` for a string `s`: optional surrounding whitespace and
sign, then a decimal numeral; `none` when `float()` raises `ValueError`. -/
def parseFloatString (s : String) : Option Rat :=
  match stripChars s.data with
  | '-' :: cs => (parseUnsignedDec cs).map (fun q => -q)
  | '+' :: cs => parseUnsignedDec cs
  | cs => parseUnsignedDec cs

/-- Python `float(x)` on a `json.loads` value: numbers pass through, `bool`
is promoted (`float(True) = 1.0`), numeric strings parse (`ValueError`
otherwise), and `None`/lists/dicts raise `TypeError`. -/
def pyFloat : Json → Except PyErr Rat
  | .int n => .ok (n : Rat)
  | .float q => .ok q
  | .bool b => .ok (if b then 1 else 0)
  | .str s =>
    match parseFloatString s with
    | some q => .ok q
    | none => .error .valueError
  | .null => .error .typeError
  | .arr _ => .error .typeError
  | .obj _ => .error .typeError

/-- `x.get(...)` requires a dict; on any other value Python raises
`AttributeError`. -/
def asObj : Json → Except PyErr JObj
  | .obj o => .ok o
  | _ => .error .attributeError

/-- Python `for x in v`: lists yield elements, strings one-character strings,
dicts their keys; numbers, booleans and `None` raise `TypeError`. -/
def pyIterList : Json → Except PyErr (List Json)
  | .arr xs => .ok xs
  | .str s => .ok (s.toList.map (fun c => Json.str (String.singleton c)))
  | .obj kvs => .ok (kvs.map (fun kv => Json.str kv.1))
  | .null => .error .typeError
  | .bool _ => .error .typeError
  | .int _ => .error .typeError
  | .float _ => .error .typeError

/-- `next(...)` over a generator with at most one hit (`workflow.py` evaluator
selection): `StopIteration` when nothing matches. -/
def pyNext : Option α → Except PyErr α
  | some a => .ok a
  | none => .error .stopIteration

/-- Effectful map over a list, stopping at the first raised exception (the
semantics of a Python list comprehension whose body may raise). -/
def mapE (f : α → Except PyErr β) : List α → Except PyErr (List β)
  | [] => .ok []
  | x :: xs => do
    let y ← f x
    let ys ← mapE f xs
    .ok (y :: ys)

/-! ## Data model (`src/models.py`)

One Lean structure per dataclass, fields in dataclass order.  Python `float`
fields are `Rat`, `int` fields are `Int`, `Optional[int]` is `Option Int`.
`SectionInstruction.base_from_draft` is annotated `Optional[DraftId]` in
`models.py`, but `workflow.py` stores the raw response value
(`si.get("base_from_draft")`, no coercion), so the field holds a `Json`
(`Json.null` when absent). -/

structure WorkerConfig where
  id : String
  display_name : String
  persona : String
deriving DecidableEq, Inhabited

structure EvaluatorConfig where
  id : String
  role : String
deriving DecidableEq, Inhabited

structure RunConfig where
  run_id : String
  model : String
  temperature : Rat
  seed : Option Int
  max_tokens_per_call : Option Int
  workers : List WorkerConfig
  evaluators : List EvaluatorConfig
deriving Inhabited

structure Task where
  user_prompt : String
  normalized_brief : String
  constraints : List String
  success_criteria : List String
deriving DecidableEq, Inhabited

structure Uncertainty where
  id : String
  description : String
  type : String
  impact : String
deriving DecidableEq, Inhabited

structure Draft where
  draft_id : String
  worker_id : String
  version : Int
  content : String
  uncertainties : List Uncertainty
deriving DecidableEq, Inhabited

structure FactCheckIssue where
  severity : String
  location_hint : String
  description : String
  type : String
deriving DecidableEq, Inhabited

structure FactCheckResult where
  evaluator_id : String
  draft_id : String
  issues : List FactCheckIssue
  overall_confidence : Rat
  summary : String
deriving DecidableEq, Inhabited

structure RubricDimensionScore where
  name : String
  score : Rat
  justification : String
deriving DecidableEq, Inhabited

structure RubricScoresForDraft where
  draft_id : String
  dimension_scores : List RubricDimensionScore
  overall_score : Rat
  summary : String
deriving DecidableEq, Inhabited

structure RubricEvaluation where
  evaluator_id : String
  dimensions : List String
  per_draft : List RubricScoresForDraft
  ranking : List String
  rationale_for_ranking : String
deriving DecidableEq, Inhabited

structure SectionInstruction where
  section_label : String
  base_from_draft : Json
  actions : List String
  notes : String
deriving Inhabited

structure ReuseSuggestion where
  from_draft : String
  what_to_reuse : String
deriving DecidableEq, Inhabited

structure EditPlan where
  evaluator_id : String
  chosen_base_draft : String
  global_strategy : String
  section_instructions : List SectionInstruction
  reuse_suggestions : List ReuseSuggestion
  open_questions : List String
deriving Inhabited

structure Revision where
  draft_id : String
  from_draft_id : String
  worker_id : String
  version : Int
  content : String
  change_summary : List String
  updated_uncertainties : List Uncertainty
deriving DecidableEq, Inhabited

structure FinalDecision where
  evaluator_id : String
  winner_draft_id : String
  ranking : List String
  reasoning : String
  rubric_evaluation : RubricEvaluation
deriving DecidableEq, Inhabited

structure RunLog where
  config : RunConfig
  task : Task
  initial_drafts : List Draft
  fact_checks : List FactCheckResult
  rubric_evaluation_initial : RubricEvaluation
  edit_plan : EditPlan
  revisions : List Revision
  final_decision : FinalDecision
deriving Inhabited

/-! ## The model collaborator

`LLMClient.chat_json` performs the external HTTP round trip and
`json.loads`-parses the returned content.  For verification the collaborator
is a script: a list of already-parsed canned responses consumed one per call
(the stubbed client of the end-to-end spec scenario).  The prompt strings the
orchestrator builds are sent to this external boundary and do not influence a
scripted response, so the embedding threads only the response list. -/

/-- One `client.chat_json(system, user)` round trip against the scripted
collaborator: pop the next canned response. -/
def chat_json : List Json → Except PyErr (Json × List Json)
  | [] => .error .emptyScript
  | r :: rest => .ok (r, rest)

/-- A stage that makes exactly one `chat_json` call and parses the response
(`normalize_task`, `call_factchecker`, `call_rubric_scorer`,
`call_synthesizer`, `call_final_judge` all have this shape). -/
def callStage (parse : Json → Except PyErr α) (st : List Json) :
    Except PyErr (α × List Json) := do
  let (resp, st1) ← chat_json st
  let a ← parse resp
  .ok (a, st1)

/-! ## Worker and persona defaults (`workflow.py` lines 37-64) -/

/-- `prompts.worker_persona`. -/
def worker_persona (worker_id : String) : String :=
  if worker_id = "WorkerA" then
    "You prioritize structure, decomposition, and clear interfaces/abstractions. " ++
    "You propose step-by-step plans and clean designs. You care about internal consistency."
  else if worker_id = "WorkerB" then
    "You optimize for concrete, usable output: examples, commands, code, specific steps. " ++
    "You care more about getting something that works than about perfect theory."
  else if worker_id = "WorkerC" then
    "You relentlessly look for edge cases, missing assumptions, and things that could go wrong. " ++
    "You still produce a full draft, but you actively highlight weak spots and risks."
  else if worker_id = "WorkerD" then
    "You optimize for clarity, pedagogy, and naming. Your draft should be easy to read " ++
    "for someone smart but not deeply familiar with the context."
  else "You are a capable assistant."

/-- `workflow.default_workers`. -/
def default_workers : List WorkerConfig :=
  [ { id := "WorkerA", display_name := "Architect", persona := worker_persona "WorkerA" },
    { id := "WorkerB", display_name := "Pragmatist", persona := worker_persona "WorkerB" },
    { id := "WorkerC", display_name := "Skeptic", persona := worker_persona "WorkerC" },
    { id := "WorkerD", display_name := "Communicator", persona := worker_persona "WorkerD" } ]

/-- `workflow.default_evaluators`. -/
def default_evaluators : List EvaluatorConfig :=
  [ { id := "Eval1", role := "FactChecker" },
    { id := "Eval2", role := "RubricScorer" },
    { id := "Eval3", role := "Synthesizer" },
    { id := "FinalJudge", role := "Final selection judge" } ]

/-! ## Response coercion and stage calls (`workflow.py` lines 67-282) -/

/-- `if not isinstance(x, list): x = [str(x)]` — the wrap-scalar policy used
for `"constraints"`, `"success_criteria"` (`workflow.py` lines 73-76) and
`"change_summary"` (lines 238-239): a list passes through, any other value
becomes a one-element list holding its string coercion. -/
def listifyWrap : Json → List Json
  | .arr xs => xs
  | v => [Json.str (pyStr v)]

/-- `if not isinstance(x, list): x = []` — the empty-list policy used for
`"uncertainties"` (`workflow.py` lines 91-92) and `"updated_uncertainties"`
(lines 241-242): a list passes through, any other value becomes `[]`. -/
def listOrEmpty : Json → List Json
  | .arr xs => xs
  | _ => []

/-- Body of `normalize_task` after the client call (`workflow.py` lines 70-82):
`brief` is `resp.get("brief", "").strip()` — `.strip()` raises
`AttributeError` when the value is present but not a string; a non-list
`constraints`/`success_criteria` is wrapped as `[str(value)]`; every element
is then `str()`-coerced. -/
def parseTaskResp (user_prompt : String) (resp : Json) : Except PyErr Task := do
  let o ← asObj resp
  let brief ←
    match jgetD o "brief" (Json.str "") with
    | .str s => Except.ok (pyStrip s)
    | _ => Except.error PyErr.attributeError
  let constraints := listifyWrap (jgetD o "constraints" (Json.arr []))
  let success := listifyWrap (jgetD o "success_criteria" (Json.arr []))
  .ok { user_prompt := user_prompt
        normalized_brief := brief
        constraints := constraints.map pyStr
        success_criteria := success.map pyStr }

/-- `workflow.normalize_task` (prompt building + one client call + coercion). -/
def normalize_task (user_prompt : String) (st : List Json) :
    Except PyErr (Task × List Json) :=
  callStage (parseTaskResp user_prompt) st

/-- One uncertainty object (`workflow.py` lines 94-99 and 244-249): string
fields are `str()`-coerced with the documented defaults; `defaultId` is the
deterministic id synthesized when the response omits `"id"`. -/
def parseUncertainty (defaultId : String) (u : Json) : Except PyErr Uncertainty := do
  let o ← asObj u
  .ok { id := pyStr (jgetD o "id" (Json.str defaultId))
        description := pyStr (jgetD o "description" (Json.str ""))
        type := pyStr (jgetD o "type" (Json.str "other"))
        impact := pyStr (jgetD o "impact" (Json.str "medium")) }

/-- `enumerate`-style parse of an uncertainty list: element `i` gets the
synthesized default id `mkDefault i`. -/
def parseUncList (mkDefault : Nat → String) : Nat → List Json → Except PyErr (List Uncertainty)
  | _, [] => .ok []
  | i, u :: us => do
    let x ← parseUncertainty (mkDefault i) u
    let xs ← parseUncList mkDefault (i + 1) us
    .ok (x :: xs)

/-- Per-worker body of the `call_workers` loop (`workflow.py` lines 88-110):
a non-list `"uncertainties"` is replaced by `[]`; the draft id is
`{w.id}_v1`, version 1, content `str()`-coerced. -/
def parseDraftResp (w : WorkerConfig) (resp : Json) : Except PyErr Draft := do
  let o ← asObj resp
  let rawUncs := listOrEmpty (jgetD o "uncertainties" (Json.arr []))
  let uncertainties ← parseUncList (fun i => w.id ++ "_u" ++ toString i) 0 rawUncs
  .ok { draft_id := w.id ++ "_v1"
        worker_id := w.id
        version := 1
        content := pyStr (jgetD o "draft" (Json.str ""))
        uncertainties := uncertainties }

/-- `workflow.call_workers`: one client call per worker, in worker-list
order. -/
def call_workers : List WorkerConfig → Task → List Json →
    Except PyErr (List Draft × List Json)
  | [], _, st => .ok ([], st)
  | w :: ws, task, st => do
    let (draft, st1) ← callStage (parseDraftResp w) st
    let (rest, st2) ← call_workers ws task st1
    .ok (draft :: rest, st2)

/-- One fact-check issue (`workflow.py` lines 123-131). -/
def parseIssue (i : Json) : Except PyErr FactCheckIssue := do
  let o ← asObj i
  .ok { severity := pyStr (jgetD o "severity" (Json.str "minor"))
        location_hint := pyStr (jgetD o "location_hint" (Json.str ""))
        description := pyStr (jgetD o "description" (Json.str ""))
        type := pyStr (jgetD o "type" (Json.str "other")) }

/-- The `"issues"` list of one fact-check result entry. -/
def parseIssues (o : JObj) : Except PyErr (List FactCheckIssue) := do
  let raw ← pyIterList (jgetD o "issues" (Json.arr []))
  mapE parseIssue raw

/-- One entry of the fact-checker's `"results"` list (`workflow.py` lines
121-140): issues are parsed first, then `overall_confidence` goes through
`float()` (default `0.0`). -/
def parseFactCheckResult (evid : String) (r : Json) : Except PyErr FactCheckResult :=
  match asObj r with
  | .error e => .error e
  | .ok o =>
    match parseIssues o with
    | .error e => .error e
    | .ok issues =>
      match pyFloat (jgetD o "overall_confidence" (Json.float 0)) with
      | .error e => .error e
      | .ok conf =>
        .ok { evaluator_id := evid
              draft_id := pyStr (jgetD o "draft_id" (Json.str ""))
              issues := issues
              overall_confidence := conf
              summary := pyStr (jgetD o "summary" (Json.str "")) }

/-- All entries of `"results"`, in order. -/
def parseFCResults (evid : String) : List Json → Except PyErr (List FactCheckResult)
  | [] => .ok []
  | r :: rs => do
    let x ← parseFactCheckResult evid r
    let xs ← parseFCResults evid rs
    .ok (x :: xs)

/-- Body of `call_factchecker` after the client call: iterate
`resp.get("results", [])` and parse each entry. -/
def parseFactCheckerResp (evid : String) (resp : Json) :
    Except PyErr (List FactCheckResult) := do
  let o ← asObj resp
  let rl ← pyIterList (jgetD o "results" (Json.arr []))
  parseFCResults evid rl

/-- `workflow.call_factchecker`. -/
def call_factchecker (evaluator : EvaluatorConfig) (_task : Task)
    (_drafts : List Draft) (st : List Json) :
    Except PyErr (List FactCheckResult × List Json) :=
  callStage (parseFactCheckerResp evaluator.id) st

/-- One rubric dimension score (`workflow.py` lines 148-155): `score` goes
through `float()` (default `0.0`). -/
def parseDimScore (d : Json) : Except PyErr RubricDimensionScore := do
  let o ← asObj d
  let score ← pyFloat (jgetD o "score" (Json.float 0))
  .ok { name := pyStr (jgetD o "name" (Json.str ""))
        score := score
        justification := pyStr (jgetD o "justification" (Json.str "")) }

/-- One `"per_draft"` entry (`workflow.py` lines 147-163). -/
def parseScoresForDraft (rd : Json) : Except PyErr RubricScoresForDraft := do
  let o ← asObj rd
  let dsRaw ← pyIterList (jgetD o "dimension_scores" (Json.arr []))
  let ds ← mapE parseDimScore dsRaw
  let overall ← pyFloat (jgetD o "overall_score" (Json.float 0))
  .ok { draft_id := pyStr (jgetD o "draft_id" (Json.str ""))
        dimension_scores := ds
        overall_score := overall
        summary := pyStr (jgetD o "summary" (Json.str "")) }

/-- `workflow.parse_rubric_evaluation`: the evaluator id is the supplied
argument (any evaluator id in the response is ignored); `ranking` is the
`str()`-coerced top-level `"ranking"` list. -/
def parse_rubric_evaluation (evaluator_id : String) (resp : Json) :
    Except PyErr RubricEvaluation := do
  let o ← asObj resp
  let dimsRaw ← pyIterList (jgetD o "dimensions" (Json.arr []))
  let pdRaw ← pyIterList (jgetD o "per_draft" (Json.arr []))
  let per_draft ← mapE parseScoresForDraft pdRaw
  let rankRaw ← pyIterList (jgetD o "ranking" (Json.arr []))
  .ok { evaluator_id := evaluator_id
        dimensions := dimsRaw.map pyStr
        per_draft := per_draft
        ranking := rankRaw.map pyStr
        rationale_for_ranking := pyStr (jgetD o "rationale_for_ranking" (Json.str "")) }

/-- `workflow.call_rubric_scorer`. -/
def call_rubric_scorer (evaluator : EvaluatorConfig) (_task : Task)
    (_drafts : List Draft) (_fact_checks : List FactCheckResult) (_phase : String)
    (st : List Json) : Except PyErr (RubricEvaluation × List Json) :=
  callStage (parse_rubric_evaluation evaluator.id) st

/-- One section instruction (`workflow.py` lines 199-207):
`base_from_draft` keeps the raw response value (`si.get("base_from_draft")`,
default `None`, no coercion). -/
def parseSectionInstruction (si : Json) : Except PyErr SectionInstruction := do
  let o ← asObj si
  let acRaw ← pyIterList (jgetD o "actions" (Json.arr []))
  .ok { section_label := pyStr (jgetD o "section_label" (Json.str ""))
        base_from_draft := jgetD o "base_from_draft" Json.null
        actions := acRaw.map pyStr
        notes := pyStr (jgetD o "notes" (Json.str "")) }

/-- One reuse suggestion (`workflow.py` lines 208-214). -/
def parseReuseSuggestion (rs : Json) : Except PyErr ReuseSuggestion := do
  let o ← asObj rs
  .ok { from_draft := pyStr (jgetD o "from_draft" (Json.str ""))
        what_to_reuse := pyStr (jgetD o "what_to_reuse" (Json.str "")) }

/-- Body of `call_synthesizer` after the client call (`workflow.py` lines
193-222), in Python evaluation order. -/
def parseEditPlanResp (evid : String) (resp : Json) : Except PyErr EditPlan := do
  let o ← asObj resp
  let chosen := pyStr (jgetD o "chosen_base_draft" (Json.str ""))
  let strategy := pyStr (jgetD o "global_strategy" (Json.str ""))
  let oqRaw ← pyIterList (jgetD o "open_questions" (Json.arr []))
  let siRaw ← pyIterList (jgetD o "section_instructions" (Json.arr []))
  let sis ← mapE parseSectionInstruction siRaw
  let reRaw ← pyIterList (jgetD o "reuse_suggestions" (Json.arr []))
  let reuse ← mapE parseReuseSuggestion reRaw
  .ok { evaluator_id := evid
        chosen_base_draft := chosen
        global_strategy := strategy
        section_instructions := sis
        reuse_suggestions := reuse
        open_questions := oqRaw.map pyStr }

/-- `workflow.call_synthesizer`. -/
def call_synthesizer (evaluator : EvaluatorConfig) (_task : Task)
    (_drafts : List Draft) (_fact_checks : List FactCheckResult)
    (_rubric : RubricEvaluation) (st : List Json) :
    Except PyErr (EditPlan × List Json) :=
  callStage (parseEditPlanResp evaluator.id) st

/-- The dict comprehension `{d.worker_id: d for d in initial_drafts}` followed
by lookup: a later draft with the same worker id shadows an earlier one. -/
def draftByWorker (ds : List Draft) (wid : String) : Option Draft :=
  ds.foldl (fun acc d => if d.worker_id = wid then some d else acc) none

/-- Per-worker body of the `call_revision_workers` loop (`workflow.py` lines
236-263): a non-list `"change_summary"` is wrapped as `[str(value)]`; a
non-list `"updated_uncertainties"` is replaced by `[]`; the new draft id is
`{w.id}_v2` and `from_draft_id` is the worker's own prior draft id. -/
def parseRevisionResp (w : WorkerConfig) (own : Draft) (resp : Json) :
    Except PyErr Revision := do
  let o ← asObj resp
  let revised := pyStr (jgetD o "revised_draft" (Json.str ""))
  let csList := listifyWrap (jgetD o "change_summary" (Json.arr []))
  let uuList := listOrEmpty (jgetD o "updated_uncertainties" (Json.arr []))
  let uncs ← parseUncList (fun i => w.id ++ "_v2_u" ++ toString i) 0 uuList
  .ok { draft_id := w.id ++ "_v2"
        from_draft_id := own.draft_id
        worker_id := w.id
        version := 2
        content := revised
        change_summary := csList.map pyStr
        updated_uncertainties := uncs }

/-- `workflow.call_revision_workers`: for each worker, look up that worker's
own prior draft (`draft_by_worker[w.id]`, `KeyError` on a miss), build the
revision prompts from it and the shared edit plan, and parse the response. -/
def call_revision_workers : List WorkerConfig → Task → List Draft → EditPlan →
    List Json → Except PyErr (List Revision × List Json)
  | [], _, _, _, st => .ok ([], st)
  | w :: ws, task, initial_drafts, edit_plan, st => do
    let own ←
      match draftByWorker initial_drafts w.id with
      | some d => Except.ok d
      | none => Except.error PyErr.keyError
    let (rev, st1) ← callStage (parseRevisionResp w own) st
    let (rest, st2) ← call_revision_workers ws task initial_drafts edit_plan st1
    .ok (rev :: rest, st2)

/-- Body of `call_final_judge` after the client call (`workflow.py` lines
272-282): the whole response is re-read as a rubric evaluation, the winner and
reasoning are `str()`-coerced, and `ranking` is taken from the embedded rubric
evaluation. -/
def parseFinalDecisionResp (evid : String) (resp : Json) :
    Except PyErr FinalDecision := do
  let rubric_eval ← parse_rubric_evaluation evid resp
  let o ← asObj resp
  .ok { evaluator_id := evid
        winner_draft_id := pyStr (jgetD o "winner_draft_id" (Json.str ""))
        ranking := rubric_eval.ranking
        reasoning := pyStr (jgetD o "reasoning" (Json.str ""))
        rubric_evaluation := rubric_eval }

/-- `workflow.call_final_judge`. -/
def call_final_judge (evaluator : EvaluatorConfig) (_task : Task)
    (_revisions : List Revision) (st : List Json) :
    Except PyErr (FinalDecision × List Json) :=
  callStage (parseFinalDecisionResp evaluator.id) st

/-- `workflow.run_workflow` (lines 285-331).  `now_run_id()` draws on the
clock and a UUID, so the run id is a parameter here; the client construction
is the external scripted collaborator `st`. -/
def run_workflow (user_prompt run_id model : String) (temperature : Rat)
    (seed max_tokens_per_call : Option Int) (st : List Json) :
    Except PyErr (RunLog × List Json) := do
  let workers := default_workers
  let evaluators := default_evaluators
  let config : RunConfig :=
    { run_id := run_id, model := model, temperature := temperature,
      seed := seed, max_tokens_per_call := max_tokens_per_call,
      workers := workers, evaluators := evaluators }
  let (task, st1) ← normalize_task user_prompt st
  let (initial_drafts, st2) ← call_workers workers task st1
  let eval1 ← pyNext (evaluators.find? (fun e => e.id == "Eval1"))
  let eval2 ← pyNext (evaluators.find? (fun e => e.id == "Eval2"))
  let eval3 ← pyNext (evaluators.find? (fun e => e.id == "Eval3"))
  let final_eval ← pyNext (evaluators.find? (fun e => e.id == "FinalJudge"))
  let (fact_checks, st3) ← call_factchecker eval1 task initial_drafts st2
  let (rubric_initial, st4) ←
    call_rubric_scorer eval2 task initial_drafts fact_checks "initial" st3
  let (edit_plan, st5) ←
    call_synthesizer eval3 task initial_drafts fact_checks rubric_initial st4
  let (revisions, st6) ←
    call_revision_workers workers task initial_drafts edit_plan st5
  let (final_decision, st7) ← call_final_judge final_eval task revisions st6
  .ok ({ config := config, task := task, initial_drafts := initial_drafts,
         fact_checks := fact_checks, rubric_evaluation_initial := rubric_initial,
         edit_plan := edit_plan, revisions := revisions,
         final_decision := final_decision }, st7)

/-! ## Persistence (`workflow.save_runlog`, lines 334-350)

`json.dump(runlog, f, indent=2, default=default)` serializes the object graph:
the `default` hook maps every pipeline dataclass through `asdict`, which
recursively produces plain dicts (keys in dataclass field order) and lists.
The `*ToJson` encoders below are that `asdict` semantics; `jsonRender` is the
textual encoding written to the file (`indent=2` only inserts whitespace,
which `jsonParse` skips, so the compact form is used). -/

/-- `Optional[int]` under `asdict`/`json.dump`: `None` becomes JSON `null`. -/
def optIntToJson : Option Int → Json
  | none => Json.null
  | some n => Json.int n

def workerConfigToJson (w : WorkerConfig) : Json :=
  Json.obj [("id", Json.str w.id), ("display_name", Json.str w.display_name),
            ("persona", Json.str w.persona)]

def evaluatorConfigToJson (e : EvaluatorConfig) : Json :=
  Json.obj [("id", Json.str e.id), ("role", Json.str e.role)]

def runConfigToJson (c : RunConfig) : Json :=
  Json.obj [("run_id", Json.str c.run_id), ("model", Json.str c.model),
            ("temperature", Json.float c.temperature),
            ("seed", optIntToJson c.seed),
            ("max_tokens_per_call", optIntToJson c.max_tokens_per_call),
            ("workers", Json.arr (c.workers.map workerConfigToJson)),
            ("evaluators", Json.arr (c.evaluators.map evaluatorConfigToJson))]

def taskToJson (t : Task) : Json :=
  Json.obj [("user_prompt", Json.str t.user_prompt),
            ("normalized_brief", Json.str t.normalized_brief),
            ("constraints", Json.arr (t.constraints.map Json.str)),
            ("success_criteria", Json.arr (t.success_criteria.map Json.str))]

def uncertaintyToJson (u : Uncertainty) : Json :=
  Json.obj [("id", Json.str u.id), ("description", Json.str u.description),
            ("type", Json.str u.type), ("impact", Json.str u.impact)]

def draftToJson (d : Draft) : Json :=
  Json.obj [("draft_id", Json.str d.draft_id), ("worker_id", Json.str d.worker_id),
            ("version", Json.int d.version), ("content", Json.str d.content),
            ("uncertainties", Json.arr (d.uncertainties.map uncertaintyToJson))]

def factCheckIssueToJson (i : FactCheckIssue) : Json :=
  Json.obj [("severity", Json.str i.severity),
            ("location_hint", Json.str i.location_hint),
            ("description", Json.str i.description), ("type", Json.str i.type)]

def factCheckResultToJson (f : FactCheckResult) : Json :=
  Json.obj [("evaluator_id", Json.str f.evaluator_id),
            ("draft_id", Json.str f.draft_id),
            ("issues", Json.arr (f.issues.map factCheckIssueToJson)),
            ("overall_confidence", Json.float f.overall_confidence),
            ("summary", Json.str f.summary)]

def rubricDimensionScoreToJson (d : RubricDimensionScore) : Json :=
  Json.obj [("name", Json.str d.name), ("score", Json.float d.score),
            ("justification", Json.str d.justification)]

def rubricScoresForDraftToJson (r : RubricScoresForDraft) : Json :=
  Json.obj [("draft_id", Json.str r.draft_id),
            ("dimension_scores", Json.arr (r.dimension_scores.map rubricDimensionScoreToJson)),
            ("overall_score", Json.float r.overall_score),
            ("summary", Json.str r.summary)]

def rubricEvaluationToJson (r : RubricEvaluation) : Json :=
  Json.obj [("evaluator_id", Json.str r.evaluator_id),
            ("dimensions", Json.arr (r.dimensions.map Json.str)),
            ("per_draft", Json.arr (r.per_draft.map rubricScoresForDraftToJson)),
            ("ranking", Json.arr (r.ranking.map Json.str)),
            ("rationale_for_ranking", Json.str r.rationale_for_ranking)]

def sectionInstructionToJson (s : SectionInstruction) : Json :=
  Json.obj [("section_label", Json.str s.section_label),
            ("base_from_draft", s.base_from_draft),
            ("actions", Json.arr (s.actions.map Json.str)),
            ("notes", Json.str s.notes)]

def reuseSuggestionToJson (r : ReuseSuggestion) : Json :=
  Json.obj [("from_draft", Json.str r.from_draft),
            ("what_to_reuse", Json.str r.what_to_reuse)]

def editPlanToJson (p : EditPlan) : Json :=
  Json.obj [("evaluator_id", Json.str p.evaluator_id),
            ("chosen_base_draft", Json.str p.chosen_base_draft),
            ("global_strategy", Json.str p.global_strategy),
            ("section_instructions", Json.arr (p.section_instructions.map sectionInstructionToJson)),
            ("reuse_suggestions", Json.arr (p.reuse_suggestions.map reuseSuggestionToJson)),
            ("open_questions", Json.arr (p.open_questions.map Json.str))]

def revisionToJson (r : Revision) : Json :=
  Json.obj [("draft_id", Json.str r.draft_id),
            ("from_draft_id", Json.str r.from_draft_id),
            ("worker_id", Json.str r.worker_id),
            ("version", Json.int r.version),
            ("content", Json.str r.content),
            ("change_summary", Json.arr (r.change_summary.map Json.str)),
            ("updated_uncertainties", Json.arr (r.updated_uncertainties.map uncertaintyToJson))]

def finalDecisionToJson (f : FinalDecision) : Json :=
  Json.obj [("evaluator_id", Json.str f.evaluator_id),
            ("winner_draft_id", Json.str f.winner_draft_id),
            ("ranking", Json.arr (f.ranking.map Json.str)),
            ("reasoning", Json.str f.reasoning),
            ("rubric_evaluation", rubricEvaluationToJson f.rubric_evaluation)]

/-- The full JSON document `json.dump` writes for a `RunLog`. -/
def runlogToJson (r : RunLog) : Json :=
  Json.obj [("config", runConfigToJson r.config),
            ("task", taskToJson r.task),
            ("initial_drafts", Json.arr (r.initial_drafts.map draftToJson)),
            ("fact_checks", Json.arr (r.fact_checks.map factCheckResultToJson)),
            ("rubric_evaluation_initial", rubricEvaluationToJson r.rubric_evaluation_initial),
            ("edit_plan", editPlanToJson r.edit_plan),
            ("revisions", Json.arr (r.revisions.map revisionToJson)),
            ("final_decision", finalDecisionToJson r.final_decision)]

/-- `os.path.join(a, b)` for the paths the CLI uses (relative `b`, as
`run_{id}.json` always is): insert a separator unless `a` is empty or already
ends with one. -/
def pathJoin (a b : String) : String :=
  if a.isEmpty then b
  else if a.back = '/' then a ++ b
  else a ++ "/" ++ b

/-- `workflow.save_runlog`: the deterministic path derived from the run id,
and the JSON document written there (the directory creation and file write
are external I/O; the Python function returns the path). -/
def save_runlog (runlog : RunLog) (out_dir : String) : String × Json :=
  (pathJoin out_dir ("run_" ++ runlog.config.run_id ++ ".json"),
   runlogToJson runlog)

/-! ### Reading the document back

`runlogFromJson` is the spec-side inverse used to state the round-trip
property ("reading the file back as JSON must reproduce every field
verbatim"): it deterministically projects every field back out of the
document, so `runlogFromJson (runlogToJson r) = some r` says the re-encoding
is lossless. -/

def strFromJson : Json → Option String
  | .str s => some s
  | _ => none

def ratFromJson : Json → Option Rat
  | .float q => some q
  | _ => none

def intFromJson : Json → Option Int
  | .int n => some n
  | _ => none

def optIntFromJson : Json → Option (Option Int)
  | .null => some none
  | .int n => some (some n)
  | _ => none

def decodeList (dec : Json → Option α) : List Json → Option (List α)
  | [] => some []
  | x :: xs => do
    let a ← dec x
    let as ← decodeList dec xs
    some (a :: as)

def workerConfigFromJson : Json → Option WorkerConfig
  | .obj [("id", .str i), ("display_name", .str d), ("persona", .str p)] =>
    some { id := i, display_name := d, persona := p }
  | _ => none

def evaluatorConfigFromJson : Json → Option EvaluatorConfig
  | .obj [("id", .str i), ("role", .str r)] => some { id := i, role := r }
  | _ => none

def runConfigFromJson : Json → Option RunConfig
  | .obj [("run_id", .str rid), ("model", .str m), ("temperature", tj),
          ("seed", sj), ("max_tokens_per_call", mj),
          ("workers", .arr wj), ("evaluators", .arr ej)] => do
    let t ← ratFromJson tj
    let s ← optIntFromJson sj
    let mt ← optIntFromJson mj
    let ws ← decodeList workerConfigFromJson wj
    let es ← decodeList evaluatorConfigFromJson ej
    some { run_id := rid, model := m, temperature := t, seed := s,
           max_tokens_per_call := mt, workers := ws, evaluators := es }
  | _ => none

def taskFromJson : Json → Option Task
  | .obj [("user_prompt", .str up), ("normalized_brief", .str nb),
          ("constraints", .arr cj), ("success_criteria", .arr sj)] => do
    let cs ← decodeList strFromJson cj
    let ss ← decodeList strFromJson sj
    some { user_prompt := up, normalized_brief := nb,
           constraints := cs, success_criteria := ss }
  | _ => none

def uncertaintyFromJson : Json → Option Uncertainty
  | .obj [("id", .str i), ("description", .str d), ("type", .str t),
          ("impact", .str im)] =>
    some { id := i, description := d, type := t, impact := im }
  | _ => none

def draftFromJson : Json → Option Draft
  | .obj [("draft_id", .str di), ("worker_id", .str wi), ("version", vj),
          ("content", .str c), ("uncertainties", .arr uj)] => do
    let v ← intFromJson vj
    let us ← decodeList uncertaintyFromJson uj
    some { draft_id := di, worker_id := wi, version := v, content := c,
           uncertainties := us }
  | _ => none

def factCheckIssueFromJson : Json → Option FactCheckIssue
  | .obj [("severity", .str s), ("location_hint", .str l),
          ("description", .str d), ("type", .str t)] =>
    some { severity := s, location_hint := l, description := d, type := t }
  | _ => none

def factCheckResultFromJson : Json → Option FactCheckResult
  | .obj [("evaluator_id", .str e), ("draft_id", .str d),
          ("issues", .arr ij), ("overall_confidence", cj),
          ("summary", .str s)] => do
    let is_ ← decodeList factCheckIssueFromJson ij
    let c ← ratFromJson cj
    some { evaluator_id := e, draft_id := d, issues := is_,
           overall_confidence := c, summary := s }
  | _ => none

def rubricDimensionScoreFromJson : Json → Option RubricDimensionScore
  | .obj [("name", .str n), ("score", sj), ("justification", .str j)] => do
    let s ← ratFromJson sj
    some { name := n, score := s, justification := j }
  | _ => none

def rubricScoresForDraftFromJson : Json → Option RubricScoresForDraft
  | .obj [("draft_id", .str d), ("dimension_scores", .arr dj),
          ("overall_score", oj), ("summary", .str s)] => do
    let ds ← decodeList rubricDimensionScoreFromJson dj
    let o ← ratFromJson oj
    some { draft_id := d, dimension_scores := ds, overall_score := o, summary := s }
  | _ => none

def rubricEvaluationFromJson : Json → Option RubricEvaluation
  | .obj [("evaluator_id", .str e), ("dimensions", .arr dj),
          ("per_draft", .arr pj), ("ranking", .arr rj),
          ("rationale_for_ranking", .str ra)] => do
    let ds ← decodeList strFromJson dj
    let ps ← decodeList rubricScoresForDraftFromJson pj
    let rs ← decodeList strFromJson rj
    some { evaluator_id := e, dimensions := ds, per_draft := ps,
           ranking := rs, rationale_for_ranking := ra }
  | _ => none

def sectionInstructionFromJson : Json → Option SectionInstruction
  | .obj [("section_label", .str s), ("base_from_draft", b),
          ("actions", .arr aj), ("notes", .str n)] => do
    let as_ ← decodeList strFromJson aj
    some { section_label := s, base_from_draft := b, actions := as_, notes := n }
  | _ => none

def reuseSuggestionFromJson : Json → Option ReuseSuggestion
  | .obj [("from_draft", .str f), ("what_to_reuse", .str w)] =>
    some { from_draft := f, what_to_reuse := w }
  | _ => none

def editPlanFromJson : Json → Option EditPlan
  | .obj [("evaluator_id", .str e), ("chosen_base_draft", .str c),
          ("global_strategy", .str g), ("section_instructions", .arr sj),
          ("reuse_suggestions", .arr rj), ("open_questions", .arr oj)] => do
    let ss ← decodeList sectionInstructionFromJson sj
    let rs ← decodeList reuseSuggestionFromJson rj
    let os_ ← decodeList strFromJson oj
    some { evaluator_id := e, chosen_base_draft := c, global_strategy := g,
           section_instructions := ss, reuse_suggestions := rs,
           open_questions := os_ }
  | _ => none

def revisionFromJson : Json → Option Revision
  | .obj [("draft_id", .str di), ("from_draft_id", .str fi),
          ("worker_id", .str wi), ("version", vj), ("content", .str c),
          ("change_summary", .arr cj), ("updated_uncertainties", .arr uj)] => do
    let v ← intFromJson vj
    let cs ← decodeList strFromJson cj
    let us ← decodeList uncertaintyFromJson uj
    some { draft_id := di, from_draft_id := fi, worker_id := wi, version := v,
           content := c, change_summary := cs, updated_uncertainties := us }
  | _ => none

def finalDecisionFromJson : Json → Option FinalDecision
  | .obj [("evaluator_id", .str e), ("winner_draft_id", .str w),
          ("ranking", .arr rj), ("reasoning", .str re), ("rubric_evaluation", ru)] => do
    let rs ← decodeList strFromJson rj
    let rb ← rubricEvaluationFromJson ru
    some { evaluator_id := e, winner_draft_id := w, ranking := rs,
           reasoning := re, rubric_evaluation := rb }
  | _ => none

def runlogFromJson : Json → Option RunLog
  | .obj [("config", cj), ("task", tj), ("initial_drafts", .arr dj),
          ("fact_checks", .arr fj), ("rubric_evaluation_initial", rj),
          ("edit_plan", ej), ("revisions", .arr vj), ("final_decision", fdj)] => do
    let c ← runConfigFromJson cj
    let t ← taskFromJson tj
    let ds ← decodeList draftFromJson dj
    let fs ← decodeList factCheckResultFromJson fj
    let ru ← rubricEvaluationFromJson rj
    let ep ← editPlanFromJson ej
    let vs ← decodeList revisionFromJson vj
    let fd ← finalDecisionFromJson fdj
    some { config := c, task := t, initial_drafts := ds, fact_checks := fs,
           rubric_evaluation_initial := ru, edit_plan := ep, revisions := vs,
           final_decision := fd }
  | _ => none

/-! ## JSON text encoding (the `json.dumps` / `json.loads` codec)

`jsonRender` is the textual form `json.dump` writes (string escapes for
quote, backslash and control characters; `indent=2` only adds whitespace
between tokens, which the reader skips, so the compact separators are used);
`jsonParse` is `json.loads` on such text, whitespace-insensitive.  These model
the Python standard-library codec, referenced by the round-trip property. -/

def hexDigitChar (n : Nat) : Char :=
  if n < 10 then Char.ofNat (48 + n) else Char.ofNat (97 + n - 10)

/-- JSON string escaping for one character. -/
def escChar (c : Char) : String :=
  if c = '"' then "\\\""
  else if c = '\\' then "\\\\"
  else if c = '\n' then "\\n"
  else if c = '\t' then "\\t"
  else if c = '\r' then "\\r"
  else if c.toNat < 32 then
    "\\u00" ++ String.singleton (hexDigitChar (c.toNat / 16)) ++
    String.singleton (hexDigitChar (c.toNat % 16))
  else String.singleton c

def escString (s : String) : String :=
  "\"" ++ String.join (s.toList.map escChar) ++ "\""

mutual
def jsonRender : Json → String
  | .null => "null"
  | .bool true => "true"
  | .bool false => "false"
  | .int n => toString n
  | .float q => ratDecimal q
  | .str s => escString s
  | .arr xs => "[" ++ String.intercalate ", " (jsonRenderList xs) ++ "]"
  | .obj kvs => "\x7b" ++ String.intercalate ", " (jsonRenderObj kvs) ++ "\x7d"

def jsonRenderList : List Json → List String
  | [] => []
  | x :: xs => jsonRender x :: jsonRenderList xs

def jsonRenderObj : List (String × Json) → List String
  | [] => []
  | (k, v) :: kvs => (escString k ++ ": " ++ jsonRender v) :: jsonRenderObj kvs
end

def isWsChar (c : Char) : Bool :=
  c = ' ' || c = '\n' || c = '\t' || c = '\r'

def skipWs : List Char → List Char
  | c :: cs => if isWsChar c then skipWs cs else c :: cs
  | [] => []

def hexCharVal (c : Char) : Option Nat :=
  if '0' ≤ c ∧ c ≤ '9' then some (c.toNat - 48)
  else if 'a' ≤ c ∧ c ≤ 'f' then some (c.toNat - 97 + 10)
  else if 'A' ≤ c ∧ c ≤ 'F' then some (c.toNat - 65 + 10)
  else none

/-- Body of a JSON string after the opening quote: characters until the
closing quote, undoing the escapes `jsonRender` can emit. -/
def parseStringBody : List Char → Option (List Char × List Char)
  | [] => none
  | '"' :: rest => some ([], rest)
  | '\\' :: 'u' :: h1 :: h2 :: h3 :: h4 :: rest => do
    let a ← hexCharVal h1
    let b ← hexCharVal h2
    let c ← hexCharVal h3
    let d ← hexCharVal h4
    let (cs, r) ← parseStringBody rest
    some (Char.ofNat (((a * 16 + b) * 16 + c) * 16 + d) :: cs, r)
  | '\\' :: e :: rest => do
    let c ← (match e with
      | '"' => some '"'
      | '\\' => some '\\'
      | '/' => some '/'
      | 'n' => some '\n'
      | 't' => some '\t'
      | 'r' => some '\r'
      | 'b' => some (Char.ofNat 8)
      | 'f' => some (Char.ofNat 12)
      | _ => none)
    let (cs, r) ← parseStringBody rest
    some (c :: cs, r)
  | c :: rest => do
    let (cs, r) ← parseStringBody rest
    some (c :: cs, r)

/-- A JSON number token: optional minus, integer digits, optional fraction
(the forms `jsonRender` emits). -/
def parseNumToken (cs : List Char) : Option (Json × List Char) :=
  let (neg, cs1) := match cs with
    | '-' :: r => (true, r)
    | _ => (false, cs)
  let (ds, cs2) := cs1.span (·.isDigit)
  if ds.isEmpty then none
  else
    match cs2 with
    | '.' :: cs3 =>
      let (fs, cs4) := cs3.span (·.isDigit)
      if fs.isEmpty then none
      else
        let q : Rat := ((digitsToNat ds : Nat) : Rat) +
                       ((digitsToNat fs : Nat) : Rat) / ((10 : Rat) ^ fs.length)
        some (Json.float (if neg then -q else q), cs4)
    | _ =>
      let n : Int := (digitsToNat ds : Nat)
      some (Json.int (if neg then -n else n), cs2)

mutual
def parseJsonVal : Nat → List Char → Option (Json × List Char)
  | 0, _ => none
  | fuel + 1, cs =>
    match skipWs cs with
    | 'n' :: 'u' :: 'l' :: 'l' :: rest => some (Json.null, rest)
    | 't' :: 'r' :: 'u' :: 'e' :: rest => some (Json.bool true, rest)
    | 'f' :: 'a' :: 'l' :: 's' :: 'e' :: rest => some (Json.bool false, rest)
    | '"' :: rest => do
      let (cs_, r) ← parseStringBody rest
      some (Json.str (String.mk cs_), r)
    | '[' :: rest =>
      (match skipWs rest with
       | ']' :: r => some (Json.arr [], r)
       | other => do
         let (xs, r) ← parseArrItems fuel other
         some (Json.arr xs, r))
    | '\x7b' :: rest =>
      (match skipWs rest with
       | '\x7d' :: r => some (Json.obj [], r)
       | other => do
         let (kvs, r) ← parseObjItems fuel other
         some (Json.obj kvs, r))
    | other => parseNumToken other

def parseArrItems : Nat → List Char → Option (List Json × List Char)
  | 0, _ => none
  | fuel + 1, cs => do
    let (v, r1) ← parseJsonVal fuel cs
    match skipWs r1 with
    | ',' :: r2 => do
      let (vs, r3) ← parseArrItems fuel r2
      some (v :: vs, r3)
    | ']' :: r2 => some ([v], r2)
    | _ => none

def parseObjItems : Nat → List Char → Option (List (String × Json) × List Char)
  | 0, _ => none
  | fuel + 1, cs =>
    match skipWs cs with
    | '"' :: rest => do
      let (kcs, r1) ← parseStringBody rest
      match skipWs r1 with
      | ':' :: r2 => do
        let (v, r3) ← parseJsonVal fuel r2
        (match skipWs r3 with
         | ',' :: r4 => do
           let (kvs, r5) ← parseObjItems fuel r4
           some ((String.mk kcs, v) :: kvs, r5)
         | '\x7d' :: r4 => some ([(String.mk kcs, v)], r4)
         | _ => none)
      | _ => none
    | _ => none
end

/-- `json.loads` on a complete document: one value plus trailing whitespace. -/
def jsonParse (s : String) : Option Json := do
  let (v, rest) ← parseJsonVal (s.length * 2 + 16) s.toList
  match skipWs rest with
  | [] => some v
  | _ => none

/-! ## Revision-stage prompts (`prompts.build_revision_worker_prompts`,
lines 290-345)

The payload dicts are hand-built in `prompts.py` (they are not `asdict` of
the records: the brief has three keys, the draft payload omits
`worker_id`/`version`, the edit-plan payload omits `evaluator_id`), and the
user prompt embeds `json.dumps(payload, indent=2)` (rendered here in the
whitespace-equivalent compact form). -/

/-- The `brief_json` payload (`prompts.py` lines 322-326). -/
def briefJson (task : Task) : Json :=
  Json.obj [("brief", Json.str task.normalized_brief),
            ("constraints", Json.arr (task.constraints.map Json.str)),
            ("success_criteria", Json.arr (task.success_criteria.map Json.str))]

/-- The `own_draft_json` payload (`prompts.py` lines 327-331). -/
def ownDraftJson (d : Draft) : Json :=
  Json.obj [("draft_id", Json.str d.draft_id),
            ("content", Json.str d.content),
            ("uncertainties", Json.arr (d.uncertainties.map uncertaintyToJson))]

/-- The `edit_plan_json` payload (`prompts.py` lines 332-338). -/
def editPlanPromptJson (p : EditPlan) : Json :=
  Json.obj [("chosen_base_draft", Json.str p.chosen_base_draft),
            ("global_strategy", Json.str p.global_strategy),
            ("section_instructions", Json.arr (p.section_instructions.map sectionInstructionToJson)),
            ("reuse_suggestions", Json.arr (p.reuse_suggestions.map reuseSuggestionToJson)),
            ("open_questions", Json.arr (p.open_questions.map Json.str))]

/-- `prompts.build_revision_worker_prompts`: the (system, user) strings sent
for one worker's revision call.  Inputs are exactly the worker's config, the
task, that worker's own prior draft, and the shared edit plan. -/
def build_revision_worker_prompts (worker : WorkerConfig) (task : Task)
    (own_draft : Draft) (edit_plan : EditPlan) : String × String :=
  let system :=
    "You are " ++ worker.id ++ " revising your own earlier draft.\n\n" ++
    "You are given:\n" ++
    "- Your previous draft (DRAFT_V1) and its uncertainties.\n" ++
    "- A global edit plan created by an editor.\n" ++
    "- The original BRIEF, CONSTRAINTS, and SUCCESS CRITERIA.\n\n" ++
    "Your tasks:\n" ++
    "1. Produce a revised draft (DRAFT_V2) that follows the edit plan.\n" ++
    "2. Keep what is good in your previous draft if it still fits the plan.\n" ++
    "3. Incorporate ideas from other drafts only as described in the plan " ++
    "(you do NOT see their actual texts; only the plan\x27s description).\n" ++
    "4. Update your list of uncertainties: which are resolved, which remain, " ++
    "and any new ones.\n\n" ++
    "Output strict JSON:\n" ++
    "\x7b\n  \"revised_draft\": \"full revised draft\",\n" ++
    "  \"change_summary\": [\n    \"short bullet points describing main changes\"\n  ],\n" ++
    "  \"updated_uncertainties\": [\n    \x7b\n      \"id\": \"short_id\",\n" ++
    "      \"description\": \"updated description\",\n" ++
    "      \"type\": \"assumption | missing_info | ambiguity | risk | other\",\n" ++
    "      \"impact\": \"low | medium | high\"\n    \x7d\n  ]\n\x7d"
  let payload :=
    Json.obj [("brief", briefJson task),
              ("edit_plan", editPlanPromptJson edit_plan),
              ("your_previous_draft", ownDraftJson own_draft)]
  let user := "Context:\n\n" ++ jsonRender payload ++ "\n\nRevise your draft now."
  (system, user)

/-- The prompt pair `call_revision_workers` sends for worker `w` when the
initial drafts are `ds`: the worker's own prior draft is looked up
(`draft_by_worker[w.id]`) and handed, together with the shared edit plan, to
`build_revision_worker_prompts` (`workflow.py` lines 230-234). -/
def revisionPromptFor (w : WorkerConfig) (task : Task) (ds : List Draft)
    (edit_plan : EditPlan) : Option (String × String) :=
  (draftByWorker ds w.id).map
    (fun own => build_revision_worker_prompts w task own edit_plan)

/-! ## The synthetic RunLog of `tests/test_runlog.py` (`_dummy_runlog`) -/

def dummy_worker : WorkerConfig :=
  { id := "WorkerA", display_name := "Architect", persona := "Structure" }

def dummy_uncertainty : Uncertainty :=
  { id := "u1", description := "desc", type := "assumption", impact := "low" }

def dummy_draft : Draft :=
  { draft_id := "WorkerA_v1", worker_id := "WorkerA", version := 1,
    content := "draft", uncertainties := [dummy_uncertainty] }

def dummy_rubric : RubricEvaluation :=
  { evaluator_id := "Eval2",
    dimensions := ["correctness"],
    per_draft := [{ draft_id := "WorkerA_v1",
                    dimension_scores := [{ name := "correctness", score := 8,
                                           justification := "ok" }],
                    overall_score := 80, summary := "solid" }],
    ranking := ["WorkerA_v1"],
    rationale_for_ranking := "best" }

/-- `_dummy_runlog("test_run")` from `tests/test_runlog.py`, field for field
(numeric literals as exact rationals). -/
def dummy_runlog : RunLog :=
  { config := { run_id := "test_run", model := "dummy", temperature := 0,
                seed := none, max_tokens_per_call := none,
                workers := [dummy_worker],
                evaluators := [{ id := "Eval1", role := "FactChecker" }] },
    task := { user_prompt := "Prompt", normalized_brief := "Brief",
              constraints := ["c1"], success_criteria := ["s1"] },
    initial_drafts := [dummy_draft],
    fact_checks := [{ evaluator_id := "Eval1", draft_id := "WorkerA_v1",
                      issues := [{ severity := "minor", location_hint := "line1",
                                   description := "note", type := "other" }],
                      overall_confidence := 5, summary := "ok" }],
    rubric_evaluation_initial := dummy_rubric,
    edit_plan := { evaluator_id := "Eval3", chosen_base_draft := "WorkerA_v1",
                   global_strategy := "Improve",
                   section_instructions := [{ section_label := "Intro",
                                              base_from_draft := Json.str "WorkerA_v1",
                                              actions := ["Keep"], notes := "None" }],
                   reuse_suggestions := [{ from_draft := "WorkerA_v1",
                                           what_to_reuse := "idea" }],
                   open_questions := ["q1"] },
    revisions := [{ draft_id := "WorkerA_v2", from_draft_id := "WorkerA_v1",
                    worker_id := "WorkerA", version := 2, content := "rev",
                    change_summary := ["updated intro"],
                    updated_uncertainties := [dummy_uncertainty] }],
    final_decision := { evaluator_id := "FinalJudge",
                        winner_draft_id := "WorkerA_v2",
                        ranking := ["WorkerA_v2"], reasoning := "best",
                        rubric_evaluation := dummy_rubric } }

/-! ## Helper lemmas -/

theorem chat_json_ok {st : List Json} {r : Json} {st' : List Json}
    (h : chat_json st = .ok (r, st')) : st = r :: st' := by
  cases st with
  | nil => simp [chat_json] at h
  | cons a t =>
    simp only [chat_json, Except.ok.injEq, Prod.mk.injEq] at h
    rw [h.1, h.2]

theorem callStage_ok {α : Type} {parse : Json → Except PyErr α}
    {st : List Json} {a : α} {st' : List Json}
    (h : callStage parse st = .ok (a, st')) :
    ∃ r, st = r :: st' ∧ parse r = .ok a := by
  cases st with
  | nil => simp [callStage, chat_json, Bind.bind, Except.bind] at h
  | cons r t =>
    cases hf : parse r with
    | error e =>
      simp [callStage, chat_json, hf, Bind.bind, Except.bind] at h
    | ok b =>
      simp [callStage, chat_json, hf, Bind.bind, Except.bind] at h
      exact ⟨r, by rw [h.2], by rw [← h.1]; exact hf⟩

theorem parseDraftResp_fields {w : WorkerConfig} {r : Json} {d : Draft}
    (h : parseDraftResp w r = .ok d) :
    d.worker_id = w.id ∧ d.draft_id = w.id ++ "_v1" ∧ d.version = 1 := by
  cases ho : asObj r with
  | error e => simp [parseDraftResp, ho, Bind.bind, Except.bind] at h
  | ok o =>
    cases hu : parseUncList (fun i => w.id ++ "_u" ++ toString i) 0
        (listOrEmpty (jgetD o "uncertainties" (Json.arr []))) with
    | error e => simp [parseDraftResp, ho, hu, Bind.bind, Except.bind] at h
    | ok us =>
      simp [parseDraftResp, ho, hu, Bind.bind, Except.bind] at h
      subst h
      exact ⟨rfl, rfl, rfl⟩

theorem call_workers_ok {ws : List WorkerConfig} {task : Task}
    {st : List Json} {ds : List Draft} {st' : List Json}
    (h : call_workers ws task st = .ok (ds, st')) :
    ds.length = ws.length ∧ st' = st.drop ws.length ∧
    ∀ i (hw : i < ws.length) (hd : i < ds.length),
      (ds.get ⟨i, hd⟩).worker_id = (ws.get ⟨i, hw⟩).id ∧
      (ds.get ⟨i, hd⟩).draft_id = (ws.get ⟨i, hw⟩).id ++ "_v1" ∧
      (ds.get ⟨i, hd⟩).version = 1 := by
  induction ws generalizing st ds st' with
  | nil =>
    simp only [call_workers, Except.ok.injEq, Prod.mk.injEq] at h
    obtain ⟨h1, h2⟩ := h
    subst h1; subst h2
    exact ⟨rfl, rfl, fun i hw => by simp at hw⟩
  | cons w ws ih =>
    cases hc : callStage (parseDraftResp w) st with
    | error e => simp [call_workers, hc, Bind.bind, Except.bind] at h
    | ok p =>
      obtain ⟨d, st1⟩ := p
      cases hr : call_workers ws task st1 with
      | error e => simp [call_workers, hc, hr, Bind.bind, Except.bind] at h
      | ok q =>
        obtain ⟨rest, st2⟩ := q
        simp only [call_workers, hc, hr, Bind.bind, Except.bind,
                   Except.ok.injEq, Prod.mk.injEq] at h
        obtain ⟨hds, hst⟩ := h
        subst hds; subst hst
        obtain ⟨r, hsteq, hp⟩ := callStage_ok hc
        obtain ⟨hlen, hdrop, hpt⟩ := ih hr
        obtain ⟨f1, f2, f3⟩ := parseDraftResp_fields hp
        refine ⟨by simp [hlen], ?_, ?_⟩
        · rw [hsteq]
          simp [hdrop]
        · intro i hw hd
          cases i with
          | zero => exact ⟨f1, f2, f3⟩
          | succ i =>
            exact hpt i (by simpa using hw) (by simpa using hd)

theorem parseRevisionResp_fields {w : WorkerConfig} {own : Draft} {r : Json}
    {rev : Revision} (h : parseRevisionResp w own r = .ok rev) :
    rev.worker_id = w.id ∧ rev.draft_id = w.id ++ "_v2" ∧ rev.version = 2 ∧
    rev.from_draft_id = own.draft_id := by
  cases ho : asObj r with
  | error e => simp [parseRevisionResp, ho, Bind.bind, Except.bind] at h
  | ok o =>
    cases hu : parseUncList (fun i => w.id ++ "_v2_u" ++ toString i) 0
        (listOrEmpty (jgetD o "updated_uncertainties" (Json.arr []))) with
    | error e => simp [parseRevisionResp, ho, hu, Bind.bind, Except.bind] at h
    | ok us =>
      simp [parseRevisionResp, ho, hu, Bind.bind, Except.bind] at h
      subst h
      exact ⟨rfl, rfl, rfl, rfl⟩

theorem call_revision_workers_ok {ws : List WorkerConfig} {task : Task}
    {ds : List Draft} {plan : EditPlan} {st : List Json} {rs : List Revision}
    {st' : List Json}
    (h : call_revision_workers ws task ds plan st = .ok (rs, st')) :
    rs.length = ws.length ∧ st' = st.drop ws.length ∧
    ∀ i (hw : i < ws.length) (hr : i < rs.length),
      ∃ own, draftByWorker ds (ws.get ⟨i, hw⟩).id = some own ∧
        (rs.get ⟨i, hr⟩).worker_id = (ws.get ⟨i, hw⟩).id ∧
        (rs.get ⟨i, hr⟩).draft_id = (ws.get ⟨i, hw⟩).id ++ "_v2" ∧
        (rs.get ⟨i, hr⟩).version = 2 ∧
        (rs.get ⟨i, hr⟩).from_draft_id = own.draft_id := by
  induction ws generalizing st rs st' with
  | nil =>
    simp only [call_revision_workers, Except.ok.injEq, Prod.mk.injEq] at h
    obtain ⟨h1, h2⟩ := h
    subst h1; subst h2
    exact ⟨rfl, rfl, fun i hw => by simp at hw⟩
  | cons w ws ih =>
    cases hby : draftByWorker ds w.id with
    | none => simp [call_revision_workers, hby, Bind.bind, Except.bind] at h
    | some own =>
      cases hc : callStage (parseRevisionResp w own) st with
      | error e => simp [call_revision_workers, hby, hc, Bind.bind, Except.bind] at h
      | ok p =>
        obtain ⟨rev, st1⟩ := p
        cases hrec : call_revision_workers ws task ds plan st1 with
        | error e =>
          simp [call_revision_workers, hby, hc, hrec, Bind.bind, Except.bind] at h
        | ok q =>
          obtain ⟨rest, st2⟩ := q
          simp only [call_revision_workers, hby, hc, hrec, Bind.bind, Except.bind,
                     Except.ok.injEq, Prod.mk.injEq] at h
          obtain ⟨hrs, hst⟩ := h
          subst hrs; subst hst
          obtain ⟨r, hsteq, hp⟩ := callStage_ok hc
          obtain ⟨hlen, hdrop, hpt⟩ := ih hrec
          obtain ⟨f1, f2, f3, f4⟩ := parseRevisionResp_fields hp
          refine ⟨by simp [hlen], ?_, ?_⟩
          · rw [hsteq]
            simp [hdrop]
          · intro i hw hr
            cases i with
            | zero => exact ⟨own, hby, f1, f2, f3, f4⟩
            | succ i =>
              exact hpt i (by simpa using hw) (by simpa using hr)

theorem string_append_cancel_right {u s t : String} (h : s ++ u = t ++ u) :
    s = t := by
  have hd := congrArg String.data h
  simp only [String.data_append] at hd
  exact String.ext (List.append_cancel_right hd)

theorem v1_ne_v2 (s t : String) : s ++ "_v1" ≠ t ++ "_v2" := by
  intro h
  have hd := congrArg (fun x => x.data.reverse) h
  simp only [String.data_append, List.reverse_append] at hd
  have h1 : ("_v1" : String).data.reverse = ['1', 'v', '_'] := rfl
  have h2 : ("_v2" : String).data.reverse = ['2', 'v', '_'] := rfl
  rw [h1, h2] at hd
  simp only [List.cons_append, List.nil_append, List.cons.injEq] at hd
  exact absurd hd.1 (by decide)

theorem append_mid_ne_empty {mid : String} (hm : 0 < mid.length)
    (wid tail : String) : wid ++ mid ++ tail ≠ "" := by
  intro h
  have := congrArg String.length h
  simp only [String.length_append] at this
  have hempty : ("" : String).length = 0 := rfl
  omega

theorem parse_rubric_evaluation_evid {evid : String} {resp : Json}
    {re : RubricEvaluation} (h : parse_rubric_evaluation evid resp = .ok re) :
    re.evaluator_id = evid := by
  cases ho : asObj resp with
  | error e => simp [parse_rubric_evaluation, ho, Bind.bind, Except.bind] at h
  | ok o =>
    cases hd : pyIterList (jgetD o "dimensions" (Json.arr [])) with
    | error e => simp [parse_rubric_evaluation, ho, hd, Bind.bind, Except.bind] at h
    | ok dims =>
      cases hp : pyIterList (jgetD o "per_draft" (Json.arr [])) with
      | error e =>
        simp [parse_rubric_evaluation, ho, hd, hp, Bind.bind, Except.bind] at h
      | ok pd =>
        cases hm : mapE parseScoresForDraft pd with
        | error e =>
          simp [parse_rubric_evaluation, ho, hd, hp, hm, Bind.bind, Except.bind] at h
        | ok per =>
          cases hr : pyIterList (jgetD o "ranking" (Json.arr [])) with
          | error e =>
            simp [parse_rubric_evaluation, ho, hd, hp, hm, hr,
                  Bind.bind, Except.bind] at h
          | ok rk =>
            simp only [parse_rubric_evaluation, ho, hd, hp, hm, hr,
                       Bind.bind, Except.bind, Except.ok.injEq] at h
            subst h
            rfl

theorem parseFCResults_length {evid : String} :
    ∀ {l : List Json} {res : List FactCheckResult},
      parseFCResults evid l = .ok res → res.length = l.length := by
  intro l
  induction l with
  | nil =>
    intro res h
    simp only [parseFCResults, Except.ok.injEq] at h
    subst h; rfl
  | cons r rs ih =>
    intro res h
    cases hr : parseFactCheckResult evid r with
    | error e => simp [parseFCResults, hr, Bind.bind, Except.bind] at h
    | ok x =>
      cases hrs : parseFCResults evid rs with
      | error e => simp [parseFCResults, hr, hrs, Bind.bind, Except.bind] at h
      | ok xs =>
        simp only [parseFCResults, hr, hrs, Bind.bind, Except.bind,
                   Except.ok.injEq] at h
        subst h
        simp [ih hrs]

/-- Shadow-map lookup is unchanged when two draft lists agree worker-by-worker
on the target worker's entries (other entries may differ arbitrarily in
content, as long as their worker assignment is unchanged). -/
theorem draftByWorker_congr {wid : String} :
    ∀ {ds1 ds2 : List Draft},
      List.Forall₂ (fun d1 d2 => d1.worker_id = d2.worker_id ∧
        (d1.worker_id = wid → d1 = d2)) ds1 ds2 →
      ∀ acc : Option Draft,
        ds1.foldl (fun acc d => if d.worker_id = wid then some d else acc) acc =
        ds2.foldl (fun acc d => if d.worker_id = wid then some d else acc) acc := by
  intro ds1 ds2 h
  induction h with
  | nil => intro acc; rfl
  | @cons d1 d2 l1 l2 hd htl ih =>
    intro acc
    obtain ⟨hid, hsame⟩ := hd
    simp only [List.foldl_cons]
    by_cases hw : d1.worker_id = wid
    · rw [if_pos hw, if_pos (hid.symm.trans hw), hsame hw]
      exact ih _
    · rw [if_neg hw, if_neg (fun hc => hw (hid.trans hc))]
      exact ih _

/-- Folding the shadow map over drafts none of which belong to `wid` leaves
the accumulator unchanged. -/
theorem shadow_absent {wid : String} :
    ∀ (ds : List Draft) (acc : Option Draft), wid ∉ ds.map Draft.worker_id →
      ds.foldl (fun acc d => if d.worker_id = wid then some d else acc) acc = acc := by
  intro ds
  induction ds with
  | nil => intro acc _; rfl
  | cons a t ih =>
    intro acc hni
    simp only [List.map_cons, List.mem_cons, not_or] at hni
    simp only [List.foldl_cons]
    rw [if_neg (fun hc => hni.1 hc.symm)]
    exact ih _ hni.2

/-- With pairwise-distinct worker ids, folding the shadow map resolves a
member draft's worker id to that draft, whatever the accumulator. -/
theorem foldl_shadow_mem :
    ∀ {t : List Draft}, (t.map Draft.worker_id).Nodup →
      ∀ {d : Draft}, d ∈ t → ∀ acc : Option Draft,
      t.foldl (fun acc x => if x.worker_id = d.worker_id then some x else acc) acc =
        some d := by
  intro t
  induction t with
  | nil => intro _ d hd; cases hd
  | cons a t ih =>
    intro hnd d hd acc
    simp only [List.map_cons, List.nodup_cons] at hnd
    cases hd with
    | head =>
      simp only [List.foldl_cons, if_pos rfl]
      exact shadow_absent t _ hnd.1
    | tail _ hmem =>
      simp only [List.foldl_cons]
      exact ih hnd.2 hmem _

/-- With pairwise-distinct worker ids, `draft_by_worker[d.worker_id]` is `d`
for every draft `d` in the list. -/
theorem draftByWorker_of_nodup {ds : List Draft}
    (hnd : (ds.map Draft.worker_id).Nodup) {d : Draft} (hd : d ∈ ds) :
    draftByWorker ds d.worker_id = some d :=
  foldl_shadow_mem hnd hd none

theorem decodeList_map {α : Type} {enc : α → Json} {dec : Json → Option α}
    (h : ∀ a, dec (enc a) = some a) :
    ∀ l : List α, decodeList dec (l.map enc) = some l := by
  intro l
  induction l with
  | nil => rfl
  | cons x xs ih => simp [decodeList, h, ih, Bind.bind, Option.bind]

theorem optInt_rt (o : Option Int) : optIntFromJson (optIntToJson o) = some o := by
  cases o <;> rfl

theorem workerConfig_rt (w : WorkerConfig) :
    workerConfigFromJson (workerConfigToJson w) = some w := rfl

theorem evaluatorConfig_rt (e : EvaluatorConfig) :
    evaluatorConfigFromJson (evaluatorConfigToJson e) = some e := rfl

theorem runConfig_rt (c : RunConfig) :
    runConfigFromJson (runConfigToJson c) = some c := by
  simp [runConfigToJson, runConfigFromJson, ratFromJson, optInt_rt,
        decodeList_map workerConfig_rt, decodeList_map evaluatorConfig_rt,
        Bind.bind, Option.bind]

theorem str_rt (s : String) : strFromJson (Json.str s) = some s := rfl

theorem task_rt (t : Task) : taskFromJson (taskToJson t) = some t := by
  simp [taskToJson, taskFromJson, decodeList_map str_rt, Bind.bind, Option.bind]

theorem uncertainty_rt (u : Uncertainty) :
    uncertaintyFromJson (uncertaintyToJson u) = some u := rfl

theorem draft_rt (d : Draft) : draftFromJson (draftToJson d) = some d := by
  simp [draftToJson, draftFromJson, intFromJson, decodeList_map uncertainty_rt,
        Bind.bind, Option.bind]

theorem factCheckIssue_rt (i : FactCheckIssue) :
    factCheckIssueFromJson (factCheckIssueToJson i) = some i := rfl

theorem factCheckResult_rt (f : FactCheckResult) :
    factCheckResultFromJson (factCheckResultToJson f) = some f := by
  simp [factCheckResultToJson, factCheckResultFromJson, ratFromJson,
        decodeList_map factCheckIssue_rt, Bind.bind, Option.bind]

theorem rubricDimensionScore_rt (d : RubricDimensionScore) :
    rubricDimensionScoreFromJson (rubricDimensionScoreToJson d) = some d := by
  simp [rubricDimensionScoreToJson, rubricDimensionScoreFromJson, ratFromJson,
        Bind.bind, Option.bind]

theorem rubricScoresForDraft_rt (r : RubricScoresForDraft) :
    rubricScoresForDraftFromJson (rubricScoresForDraftToJson r) = some r := by
  simp [rubricScoresForDraftToJson, rubricScoresForDraftFromJson, ratFromJson,
        decodeList_map rubricDimensionScore_rt, Bind.bind, Option.bind]

theorem rubricEvaluation_rt (r : RubricEvaluation) :
    rubricEvaluationFromJson (rubricEvaluationToJson r) = some r := by
  simp [rubricEvaluationToJson, rubricEvaluationFromJson,
        decodeList_map str_rt, decodeList_map rubricScoresForDraft_rt,
        Bind.bind, Option.bind]

theorem sectionInstruction_rt (s : SectionInstruction) :
    sectionInstructionFromJson (sectionInstructionToJson s) = some s := by
  simp [sectionInstructionToJson, sectionInstructionFromJson,
        decodeList_map str_rt, Bind.bind, Option.bind]

theorem reuseSuggestion_rt (r : ReuseSuggestion) :
    reuseSuggestionFromJson (reuseSuggestionToJson r) = some r := rfl

theorem editPlan_rt (p : EditPlan) :
    editPlanFromJson (editPlanToJson p) = some p := by
  simp [editPlanToJson, editPlanFromJson, decodeList_map str_rt,
        decodeList_map sectionInstruction_rt, decodeList_map reuseSuggestion_rt,
        Bind.bind, Option.bind]

theorem revision_rt (r : Revision) :
    revisionFromJson (revisionToJson r) = some r := by
  simp [revisionToJson, revisionFromJson, intFromJson, decodeList_map str_rt,
        decodeList_map uncertainty_rt, Bind.bind, Option.bind]

theorem finalDecision_rt (f : FinalDecision) :
    finalDecisionFromJson (finalDecisionToJson f) = some f := by
  simp [finalDecisionToJson, finalDecisionFromJson, decodeList_map str_rt,
        rubricEvaluation_rt, Bind.bind, Option.bind]

theorem runlog_rt (r : RunLog) : runlogFromJson (runlogToJson r) = some r := by
  simp [runlogToJson, runlogFromJson, runConfig_rt, task_rt,
        decodeList_map draft_rt, decodeList_map factCheckResult_rt,
        rubricEvaluation_rt, editPlan_rt, decodeList_map revision_rt,
        finalDecision_rt, Bind.bind, Option.bind]

/-! ## Demo inputs shared by the concrete witnesses -/

def demo_task : Task :=
  { user_prompt := "p", normalized_brief := "b", constraints := [],
    success_criteria := [] }

def demo_plan : EditPlan :=
  { evaluator_id := "Eval3", chosen_base_draft := "WorkerA_v1",
    global_strategy := "g", section_instructions := [],
    reuse_suggestions := [], open_questions := [] }

/-! ## C2 -/

/-- C2: `save_runlog` returns the deterministic path `run_{run_id}.json`
joined under the output directory together with the JSON document it writes;
the document reproduces every field of the `RunLog` object graph verbatim
(decoding the document recovers the exact record, for every `RunLog` and in
particular for the synthetic test runlog, whose `config.run_id`,
`initial_drafts[0].draft_id` and `final_decision.winner_draft_id` round-trip
unchanged). -/
theorem save_runlog_round_trip :
    (∀ (r : RunLog) (out_dir : String),
        save_runlog r out_dir =
          (pathJoin out_dir ("run_" ++ r.config.run_id ++ ".json"), runlogToJson r)) ∧
    (∀ r : RunLog, runlogFromJson (runlogToJson r) = some r) ∧
    (save_runlog dummy_runlog "runs").1 = "runs/run_test_run.json" ∧
    runlogFromJson (runlogToJson dummy_runlog) = some dummy_runlog ∧
    dummy_runlog.config.run_id = "test_run" ∧
    dummy_runlog.initial_drafts.map Draft.draft_id = ["WorkerA_v1"] ∧
    dummy_runlog.final_decision.winner_draft_id = "WorkerA_v2" :=
  ⟨fun _ _ => rfl, runlog_rt, by decide, runlog_rt dummy_runlog, rfl, rfl, rfl⟩

/-! ## C10 -/

/-- C10: a successful `call_final_judge` returns a `FinalDecision` whose
`ranking` is exactly the `ranking` of its own embedded rubric evaluation, and
whose evaluator id — like the embedded rubric's — is the supplied evaluator's
id, whatever the response contained. -/
theorem final_judge_invariants (ev : EvaluatorConfig) (task : Task)
    (revs : List Revision) (st : List Json) (fd : FinalDecision)
    (st' : List Json) (h : call_final_judge ev task revs st = .ok (fd, st')) :
    fd.ranking = fd.rubric_evaluation.ranking ∧ fd.evaluator_id = ev.id ∧
    fd.rubric_evaluation.evaluator_id = ev.id := by
  obtain ⟨r, hst, hp⟩ := callStage_ok h
  cases hre : parse_rubric_evaluation ev.id r with
  | error e => simp [parseFinalDecisionResp, hre, Bind.bind, Except.bind] at hp
  | ok re =>
    cases ho : asObj r with
    | error e =>
      simp [parseFinalDecisionResp, hre, ho, Bind.bind, Except.bind] at hp
    | ok o =>
      simp only [parseFinalDecisionResp, hre, ho, Bind.bind, Except.bind,
                 Except.ok.injEq] at hp
      subst hp
      exact ⟨rfl, rfl, parse_rubric_evaluation_evid hre⟩

def c10_resp : Json :=
  Json.obj [("winner_draft_id", Json.str "WorkerA_v2"),
            ("ranking", Json.arr [Json.str "WorkerA_v2", Json.str "WorkerB_v2"]),
            ("evaluator_id", Json.str "SomebodyElse")]

def c10_out : FinalDecision × List Json :=
  match call_final_judge { id := "FinalJudge", role := "Final selection judge" }
      demo_task [] [c10_resp] with
  | .ok p => p
  | .error _ => default

theorem final_judge_invariants_witness :
    c10_out.1.ranking = c10_out.1.rubric_evaluation.ranking ∧
    c10_out.1.evaluator_id = "FinalJudge" ∧
    c10_out.1.rubric_evaluation.evaluator_id = "FinalJudge" :=
  final_judge_invariants { id := "FinalJudge", role := "Final selection judge" }
    demo_task [] [c10_resp] c10_out.1 c10_out.2 rfl

/-! ## C9 -/

/-- C9: when the fact-check response carries a well-formed `"results"` list
with exactly one entry per draft, `call_factchecker` returns exactly one
`FactCheckResult` per entry — the returned list has the same length as the
draft list (the loop neither drops, duplicates nor reorders entries). -/
theorem factchecker_one_result_per_draft (ev : EvaluatorConfig) (task : Task)
    (drafts : List Draft) (o : JObj) (rest : List Json) (rs : List Json)
    (res : List FactCheckResult) (st' : List Json)
    (hr : jget o "results" = some (Json.arr rs))
    (hlen : rs.length = drafts.length)
    (h : call_factchecker ev task drafts (Json.obj o :: rest) = .ok (res, st')) :
    res.length = drafts.length ∧ st' = rest := by
  obtain ⟨r, hst, hp⟩ := callStage_ok h
  obtain ⟨hr1, hr2⟩ := List.cons.inj hst
  rw [← hr1] at hp
  simp only [parseFactCheckerResp, asObj, jgetD, hr, Option.getD, pyIterList,
             Bind.bind, Except.bind] at hp
  exact ⟨(parseFCResults_length hp).trans hlen, hr2.symm⟩

def c9_obj : JObj := [("results", Json.arr [Json.obj [], Json.obj []])]

def c9_out : List FactCheckResult × List Json :=
  match call_factchecker { id := "Eval1", role := "FactChecker" } demo_task
      [dummy_draft, dummy_draft] [Json.obj c9_obj] with
  | .ok p => p
  | .error _ => default

theorem factchecker_one_result_per_draft_witness :
    c9_out.1.length = [dummy_draft, dummy_draft].length ∧
    c9_out.2 = ([] : List Json) :=
  factchecker_one_result_per_draft { id := "Eval1", role := "FactChecker" }
    demo_task [dummy_draft, dummy_draft] c9_obj [] [Json.obj [], Json.obj []]
    c9_out.1 c9_out.2 rfl rfl rfl

/-! ## C4 -/

theorem parseFactCheckResult_conf {evid : String} {ro : JObj}
    {iss : List FactCheckIssue} (hiss : parseIssues ro = .ok iss) :
    parseFactCheckResult evid (Json.obj ro) =
      match pyFloat (jgetD ro "overall_confidence" (Json.float 0)) with
      | .error e => .error e
      | .ok conf =>
        .ok { evaluator_id := evid,
              draft_id := pyStr (jgetD ro "draft_id" (Json.str "")),
              issues := iss, overall_confidence := conf,
              summary := pyStr (jgetD ro "summary" (Json.str "")) } := by
  simp [parseFactCheckResult, asObj, hiss]

theorem call_factchecker_single (ev : EvaluatorConfig) (task : Task)
    (drafts : List Draft) (ro : JObj) (rest : List Json) :
    call_factchecker ev task drafts
        (Json.obj [("results", Json.arr [Json.obj ro])] :: rest) =
      match parseFactCheckResult ev.id (Json.obj ro) with
      | .error e => .error e
      | .ok x => .ok ([x], rest) := by
  cases h : parseFactCheckResult ev.id (Json.obj ro) with
  | error e =>
    simp [call_factchecker, callStage, chat_json, parseFactCheckerResp, asObj,
          jgetD, jget, pyIterList, parseFCResults, h, Bind.bind, Except.bind]
  | ok x =>
    simp [call_factchecker, callStage, chat_json, parseFactCheckerResp, asObj,
          jgetD, jget, pyIterList, parseFCResults, h, Bind.bind, Except.bind]

/-- C4: in a fact-check response entry whose issues parse, an
`overall_confidence` supplied as a numeric string (such as `"7"`) is coerced
to the corresponding float; a non-numeric string (such as `"high"`) makes
`call_factchecker` fail with the `ValueError` of `float()`; a missing
`overall_confidence` defaults to `0.0`. -/
theorem overall_confidence_coercion (ev : EvaluatorConfig) (task : Task)
    (drafts : List Draft) (ro : JObj) (rest : List Json)
    (iss : List FactCheckIssue) (hiss : parseIssues ro = .ok iss) :
    (∀ s q, jget ro "overall_confidence" = some (Json.str s) →
        parseFloatString s = some q →
        call_factchecker ev task drafts
            (Json.obj [("results", Json.arr [Json.obj ro])] :: rest) =
          .ok ([{ evaluator_id := ev.id,
                  draft_id := pyStr (jgetD ro "draft_id" (Json.str "")),
                  issues := iss, overall_confidence := q,
                  summary := pyStr (jgetD ro "summary" (Json.str "")) }], rest)) ∧
    (∀ s, jget ro "overall_confidence" = some (Json.str s) →
        parseFloatString s = none →
        call_factchecker ev task drafts
            (Json.obj [("results", Json.arr [Json.obj ro])] :: rest) =
          .error .valueError) ∧
    (jget ro "overall_confidence" = none →
        call_factchecker ev task drafts
            (Json.obj [("results", Json.arr [Json.obj ro])] :: rest) =
          .ok ([{ evaluator_id := ev.id,
                  draft_id := pyStr (jgetD ro "draft_id" (Json.str "")),
                  issues := iss, overall_confidence := 0,
                  summary := pyStr (jgetD ro "summary" (Json.str "")) }], rest)) := by
  refine ⟨?_, ?_, ?_⟩
  · intro s q h1 h2
    rw [call_factchecker_single, parseFactCheckResult_conf hiss]
    simp [jgetD, h1, pyFloat, h2]
  · intro s h1 h2
    rw [call_factchecker_single, parseFactCheckResult_conf hiss]
    simp [jgetD, h1, pyFloat, h2]
  · intro h1
    rw [call_factchecker_single, parseFactCheckResult_conf hiss]
    simp [jgetD, h1, pyFloat]

theorem overall_confidence_coercion_witness :
    (call_factchecker { id := "Eval1", role := "FactChecker" } demo_task
        [dummy_draft]
        (Json.obj [("results",
           Json.arr [Json.obj [("overall_confidence", Json.str "7")]])] :: []) =
      .ok ([{ evaluator_id := "Eval1", draft_id := "", issues := [],
              overall_confidence := 7, summary := "" }], [])) ∧
    (call_factchecker { id := "Eval1", role := "FactChecker" } demo_task
        [dummy_draft]
        (Json.obj [("results",
           Json.arr [Json.obj [("overall_confidence", Json.str "high")]])] :: []) =
      .error .valueError) ∧
    (call_factchecker { id := "Eval1", role := "FactChecker" } demo_task
        [dummy_draft] (Json.obj [("results", Json.arr [Json.obj []])] :: []) =
      .ok ([{ evaluator_id := "Eval1", draft_id := "", issues := [],
              overall_confidence := 0, summary := "" }], [])) := by
  refine ⟨?_, ?_, ?_⟩
  · exact (overall_confidence_coercion { id := "Eval1", role := "FactChecker" }
      demo_task [dummy_draft] [("overall_confidence", Json.str "7")] [] [] rfl).1
      "7" 7 rfl (by decide)
  · exact (overall_confidence_coercion { id := "Eval1", role := "FactChecker" }
      demo_task [dummy_draft] [("overall_confidence", Json.str "high")] [] [] rfl).2.1
      "high" rfl (by decide)
  · exact (overall_confidence_coercion { id := "Eval1", role := "FactChecker" }
      demo_task [dummy_draft] [] [] [] rfl).2.2 rfl

/-! ## C5 and C1 -/

theorem pyStr_str (s : String) : pyStr (Json.str s) = s := rfl

theorem listifyWrap_not_arr {v : Json} (h : ∀ xs, v ≠ Json.arr xs) :
    listifyWrap v = [Json.str (pyStr v)] := by
  cases v with
  | arr xs => exact absurd rfl (h xs)
  | _ => rfl

theorem listOrEmpty_not_arr {v : Json} (h : ∀ xs, v ≠ Json.arr xs) :
    listOrEmpty v = [] := by
  cases v with
  | arr xs => exact absurd rfl (h xs)
  | _ => rfl

/-- Evaluation of `normalize_task` on a response whose `"brief"` parses: the
brief is stripped (defaulting to the empty string) and both list fields go
through the wrap-scalar policy followed by elementwise `str()`. -/
theorem normalize_task_eval (up : String) (o : JObj) (rest : List Json)
    {b : String}
    (hb : jgetD o "brief" (Json.str "") = Json.str b) :
    normalize_task up (Json.obj o :: rest) =
      .ok ({ user_prompt := up, normalized_brief := pyStrip b,
             constraints := (listifyWrap (jgetD o "constraints" (Json.arr []))).map pyStr,
             success_criteria :=
               (listifyWrap (jgetD o "success_criteria" (Json.arr []))).map pyStr },
           rest) := by
  simp [normalize_task, callStage, chat_json, parseTaskResp, asObj, hb,
        Bind.bind, Except.bind]

/-- C5 (counterexample): `normalize_task` does fail on a shape mismatch in a
string-typed field — a `"brief"` that is present but not a string hits
`.strip()` and raises `AttributeError`. -/
theorem normalize_brief_counterexample :
    normalize_task "p" (Json.obj [("brief", Json.int 5)] :: []) =
      .error PyErr.attributeError := rfl

/-- A JSON value Python cannot iterate: `for x in v` raises `TypeError` on
`None`, booleans and numbers (lists, strings and dicts iterate). -/
def jsonScalar : Json → Bool
  | .null => true
  | .bool _ => true
  | .int _ => true
  | .float _ => true
  | .str _ => false
  | .arr _ => false
  | .obj _ => false

/-- C5 (amended): the coercion layer is shape-mismatch-proof exactly where it
guards or `str()`-coerces, and not elsewhere.  Proved here: (i) whenever
`"brief"` is absent or a string, `normalize_task` succeeds whatever the JSON
types of every other field, and an absent `"brief"` yields the empty brief
(missing string field → empty string); (ii) an `isinstance`-guarded list
field (`"uncertainties"`) tolerates any non-list value; (iii) so does the
wrap-guarded `"change_summary"` (any value, list or not); (iv) a purely
`str()`-coerced record (`reuse_suggestions` entries) parses any object
whatever its fields hold.  The remaining failure modes beyond numeric parsing
and malformed upstream JSON are: `"brief"` present-but-not-a-string raises
`AttributeError` (the counterexample), and (v)/(vi) an *un-guarded* iterated
list field — `"dimensions"` in `parse_rubric_evaluation`, `"results"` in
`call_factchecker` — raises `TypeError` when it holds a non-iterable
(`None`/bool/number) value. -/
theorem coercion_failure_modes_amended :
    (∀ (up : String) (o : JObj) (rest : List Json),
        (jget o "brief" = none ∨ ∃ s, jget o "brief" = some (Json.str s)) →
        ∃ t : Task, normalize_task up (Json.obj o :: rest) = .ok (t, rest) ∧
          (jget o "brief" = none → t.normalized_brief = "")) ∧
    (∀ (w : WorkerConfig) (o : JObj) (v : Json),
        jget o "uncertainties" = some v → (∀ xs, v ≠ Json.arr xs) →
        (parseDraftResp w (Json.obj o)).isOk = true) ∧
    (∀ (w : WorkerConfig) (own : Draft) (o : JObj),
        jget o "updated_uncertainties" = none →
        (parseRevisionResp w own (Json.obj o)).isOk = true) ∧
    (∀ o : JObj, ∃ r, parseReuseSuggestion (Json.obj o) = .ok r) ∧
    (∀ (evid : String) (o : JObj) (v : Json),
        jget o "dimensions" = some v → jsonScalar v = true →
        parse_rubric_evaluation evid (Json.obj o) = .error PyErr.typeError) ∧
    (∀ (ev : EvaluatorConfig) (task : Task) (drafts : List Draft)
        (o : JObj) (v : Json) (rest : List Json),
        jget o "results" = some v → jsonScalar v = true →
        call_factchecker ev task drafts (Json.obj o :: rest) =
          .error PyErr.typeError) := by
  refine ⟨?_, ?_, ?_, ?_, ?_, ?_⟩
  · intro up o rest hb
    rcases hb with hb | ⟨s, hb⟩
    · refine ⟨_, normalize_task_eval up o rest (b := "") (by simp [jgetD, hb]), ?_⟩
      intro _
      rfl
    · refine ⟨_, normalize_task_eval up o rest (b := s) (by simp [jgetD, hb]), ?_⟩
      intro hnone
      rw [hb] at hnone
      cases hnone
  · intro w o v hv hne
    have h : parseDraftResp w (Json.obj o) =
        .ok { draft_id := w.id ++ "_v1", worker_id := w.id, version := 1,
              content := pyStr (jgetD o "draft" (Json.str "")),
              uncertainties := [] } := by
      simp [parseDraftResp, asObj, jgetD, hv, listOrEmpty_not_arr hne,
            parseUncList, Bind.bind, Except.bind]
    rw [h]
    rfl
  · intro w own o huu
    have h : parseRevisionResp w own (Json.obj o) =
        .ok { draft_id := w.id ++ "_v2", from_draft_id := own.draft_id,
              worker_id := w.id, version := 2,
              content := pyStr (jgetD o "revised_draft" (Json.str "")),
              change_summary :=
                (listifyWrap (jgetD o "change_summary" (Json.arr []))).map pyStr,
              updated_uncertainties := [] } := by
      simp [parseRevisionResp, asObj, jgetD, huu, listOrEmpty, parseUncList,
            Bind.bind, Except.bind]
    rw [h]
    rfl
  · intro o
    exact ⟨_, rfl⟩
  · intro evid o v hv hs
    cases v with
    | null =>
      simp [parse_rubric_evaluation, asObj, jgetD, hv, pyIterList,
            Bind.bind, Except.bind]
    | bool b =>
      simp [parse_rubric_evaluation, asObj, jgetD, hv, pyIterList,
            Bind.bind, Except.bind]
    | int n =>
      simp [parse_rubric_evaluation, asObj, jgetD, hv, pyIterList,
            Bind.bind, Except.bind]
    | float q =>
      simp [parse_rubric_evaluation, asObj, jgetD, hv, pyIterList,
            Bind.bind, Except.bind]
    | str s => simp [jsonScalar] at hs
    | arr xs => simp [jsonScalar] at hs
    | obj kvs => simp [jsonScalar] at hs
  · intro ev task drafts o v rest hv hs
    cases v with
    | null =>
      simp [call_factchecker, callStage, chat_json, parseFactCheckerResp,
            asObj, jgetD, hv, pyIterList, Bind.bind, Except.bind]
    | bool b =>
      simp [call_factchecker, callStage, chat_json, parseFactCheckerResp,
            asObj, jgetD, hv, pyIterList, Bind.bind, Except.bind]
    | int n =>
      simp [call_factchecker, callStage, chat_json, parseFactCheckerResp,
            asObj, jgetD, hv, pyIterList, Bind.bind, Except.bind]
    | float q =>
      simp [call_factchecker, callStage, chat_json, parseFactCheckerResp,
            asObj, jgetD, hv, pyIterList, Bind.bind, Except.bind]
    | str s => simp [jsonScalar] at hs
    | arr xs => simp [jsonScalar] at hs
    | obj kvs => simp [jsonScalar] at hs

theorem coercion_failure_modes_amended_witness :
    ((normalize_task "p" (Json.obj [("brief", Json.str " x "),
        ("constraints", Json.obj []), ("success_criteria", Json.bool true)] :: [])).isOk
      = true) ∧
    ((parseDraftResp { id := "WorkerA", display_name := "A", persona := "x" }
        (Json.obj [("uncertainties", Json.str "odd")])).isOk = true) ∧
    ((parseRevisionResp { id := "WorkerA", display_name := "A", persona := "x" }
        dummy_draft (Json.obj [("change_summary", Json.int 7)])).isOk = true) ∧
    ((parseReuseSuggestion (Json.obj [("from_draft", Json.int 3)])).isOk = true) ∧
    (parse_rubric_evaluation "Eval2" (Json.obj [("dimensions", Json.int 5)]) =
      .error PyErr.typeError) ∧
    (call_factchecker { id := "Eval1", role := "FactChecker" } demo_task []
        (Json.obj [("results", Json.bool true)] :: []) =
      .error PyErr.typeError) := by
  refine ⟨?_, ?_, ?_, ?_, ?_, ?_⟩
  · obtain ⟨t, ht, -⟩ := coercion_failure_modes_amended.1 "p"
      [("brief", Json.str " x "), ("constraints", Json.obj []),
       ("success_criteria", Json.bool true)] [] (Or.inr ⟨" x ", rfl⟩)
    rw [ht]
    rfl
  · exact coercion_failure_modes_amended.2.1
      { id := "WorkerA", display_name := "A", persona := "x" }
      [("uncertainties", Json.str "odd")] (Json.str "odd") rfl
      (fun xs h => Json.noConfusion h)
  · exact coercion_failure_modes_amended.2.2.1
      { id := "WorkerA", display_name := "A", persona := "x" }
      dummy_draft [("change_summary", Json.int 7)] rfl
  · obtain ⟨r, hr⟩ := coercion_failure_modes_amended.2.2.2.1
      [("from_draft", Json.int 3)]
    rw [hr]
    rfl
  · exact coercion_failure_modes_amended.2.2.2.2.1 "Eval2"
      [("dimensions", Json.int 5)] (Json.int 5) rfl rfl
  · exact coercion_failure_modes_amended.2.2.2.2.2
      { id := "Eval1", role := "FactChecker" } demo_task []
      [("results", Json.bool true)] (Json.bool true) [] rfl rfl

/-- C1 (counterexample): a present-but-not-a-list `"constraints"` is not
coerced to the empty list — `normalize_task` wraps it as `[str(value)]`. -/
theorem constraints_wrap_counterexample :
    normalize_task "p" (Json.obj [("constraints", Json.int 5)] :: []) =
      .ok ({ user_prompt := "p", normalized_brief := "", constraints := ["5"],
             success_criteria := [] }, []) ∧ (["5"] : List String) ≠ [] :=
  ⟨rfl, by decide⟩

/-- C1 (amended): the per-field list-coercion policy as implemented — a
missing list field defaults to `[]`; a present-but-not-a-list value is
wrapped as the one-element list of its string coercion for `"constraints"`,
`"success_criteria"` and `"change_summary"`, and replaced by the empty list
for `"uncertainties"`. -/
theorem list_field_coercion_policy :
    (∀ (up : String) (o : JObj) (rest : List Json) (v : Json),
        jget o "brief" = none → jget o "constraints" = some v →
        (∀ xs, v ≠ Json.arr xs) →
        ∃ t, normalize_task up (Json.obj o :: rest) = .ok (t, rest) ∧
          t.constraints = [pyStr v]) ∧
    (∀ (up : String) (o : JObj) (rest : List Json) (v : Json),
        jget o "brief" = none → jget o "success_criteria" = some v →
        (∀ xs, v ≠ Json.arr xs) →
        ∃ t, normalize_task up (Json.obj o :: rest) = .ok (t, rest) ∧
          t.success_criteria = [pyStr v]) ∧
    (∀ (up : String) (o : JObj) (rest : List Json),
        jget o "brief" = none → jget o "constraints" = none →
        ∃ t, normalize_task up (Json.obj o :: rest) = .ok (t, rest) ∧
          t.constraints = []) ∧
    (∀ (w : WorkerConfig) (o : JObj) (v : Json),
        jget o "uncertainties" = some v → (∀ xs, v ≠ Json.arr xs) →
        ∃ d, parseDraftResp w (Json.obj o) = .ok d ∧ d.uncertainties = []) ∧
    (∀ (w : WorkerConfig) (own : Draft) (o : JObj) (v : Json) (rev : Revision),
        jget o "change_summary" = some v → (∀ xs, v ≠ Json.arr xs) →
        parseRevisionResp w own (Json.obj o) = .ok rev →
        rev.change_summary = [pyStr v]) := by
  refine ⟨?_, ?_, ?_, ?_, ?_⟩
  · intro up o rest v hb hv hne
    refine ⟨_, normalize_task_eval up o rest (b := "") (by simp [jgetD, hb]), ?_⟩
    simp [jgetD, hv, listifyWrap_not_arr hne, pyStr_str]
  · intro up o rest v hb hv hne
    refine ⟨_, normalize_task_eval up o rest (b := "") (by simp [jgetD, hb]), ?_⟩
    simp [jgetD, hv, listifyWrap_not_arr hne, pyStr_str]
  · intro up o rest hb hv
    refine ⟨_, normalize_task_eval up o rest (b := "") (by simp [jgetD, hb]), ?_⟩
    simp [jgetD, hv, listifyWrap]
  · intro w o v hv hne
    have h : parseDraftResp w (Json.obj o) =
        .ok { draft_id := w.id ++ "_v1", worker_id := w.id, version := 1,
              content := pyStr (jgetD o "draft" (Json.str "")),
              uncertainties := [] } := by
      simp [parseDraftResp, asObj, jgetD, hv, listOrEmpty_not_arr hne,
            parseUncList, Bind.bind, Except.bind]
    exact ⟨_, h, rfl⟩
  · intro w own o v rev hv hne h
    cases hu : parseUncList (fun i => w.id ++ "_v2_u" ++ toString i) 0
        (listOrEmpty (jgetD o "updated_uncertainties" (Json.arr []))) with
    | error e => simp [parseRevisionResp, asObj, hu, Bind.bind, Except.bind] at h
    | ok us =>
      simp only [parseRevisionResp, asObj, hu, Bind.bind, Except.bind,
                 Except.ok.injEq] at h
      subst h
      simp [jgetD, hv, listifyWrap_not_arr hne, pyStr_str]

theorem list_field_coercion_policy_witness :
    ((normalize_task "p" (Json.obj [("constraints", Json.bool true)] :: [])).map
        (fun p => p.1.constraints) = .ok ["True"]) ∧
    ((normalize_task "p" (Json.obj [("success_criteria", Json.int 3)] :: [])).map
        (fun p => p.1.success_criteria) = .ok ["3"]) ∧
    ((normalize_task "p" (Json.obj [] :: [])).map
        (fun p => p.1.constraints) = .ok []) ∧
    ((parseDraftResp { id := "WorkerA", display_name := "A", persona := "x" }
        (Json.obj [("uncertainties", Json.str "odd")])).map
        Draft.uncertainties = .ok []) := by
  refine ⟨?_, ?_, ?_, ?_⟩
  · obtain ⟨t, ht, hc⟩ := list_field_coercion_policy.1 "p"
      [("constraints", Json.bool true)] [] (Json.bool true) rfl rfl
      (fun xs h => Json.noConfusion h)
    rw [ht]
    simp only [Except.map]
    rw [hc]
    rfl
  · obtain ⟨t, ht, hc⟩ := list_field_coercion_policy.2.1 "p"
      [("success_criteria", Json.int 3)] [] (Json.int 3) rfl rfl
      (fun xs h => Json.noConfusion h)
    rw [ht]
    simp only [Except.map]
    rw [hc]
    rfl
  · obtain ⟨t, ht, hc⟩ := list_field_coercion_policy.2.2.1 "p" [] [] rfl rfl
    rw [ht]
    simp [Except.map, hc]
  · obtain ⟨d, hd, hc⟩ := list_field_coercion_policy.2.2.2.1
      { id := "WorkerA", display_name := "A", persona := "x" }
      [("uncertainties", Json.str "odd")] (Json.str "odd") rfl
      (fun xs h => Json.noConfusion h)
    rw [hd]
    simp [Except.map, hc]

/-! ## C6 -/

/-- C6 (counterexample): an uncertainty id supplied by the response is passed
through `str()` unvalidated, so a response carrying `"id": ""` produces a
Draft whose uncertainty has an empty id. -/
theorem worker_uncertainty_empty_id_counterexample :
    (call_workers [{ id := "WorkerA", display_name := "Architect", persona := "x" }]
        demo_task
        [Json.obj [("uncertainties", Json.arr [Json.obj [("id", Json.str "")]])]]).map
      (fun p => p.1.map (fun d => d.uncertainties.map Uncertainty.id)) =
    .ok [[""]] := rfl

/-- C6 (amended): for N configured workers and well-formed responses,
`call_workers` produces exactly N Drafts in worker-list order, each with
draft id `{workerId}_v1` and version 1; an Uncertainty whose `"id"` the
response omits gets the synthesized non-empty id `{workerId}_u{index}` —
but a supplied id is `str()`-coerced and passed through unvalidated, so it
may be empty. -/
theorem worker_drafts_and_synth_ids :
    (∀ (ws : List WorkerConfig) (task : Task) (st : List Json)
        (ds : List Draft) (st' : List Json),
        call_workers ws task st = .ok (ds, st') →
        ds.length = ws.length ∧
        ∀ i (hw : i < ws.length) (hd : i < ds.length),
          (ds.get ⟨i, hd⟩).worker_id = (ws.get ⟨i, hw⟩).id ∧
          (ds.get ⟨i, hd⟩).draft_id = (ws.get ⟨i, hw⟩).id ++ "_v1" ∧
          (ds.get ⟨i, hd⟩).version = 1) ∧
    (∀ (wid : String) (i : Nat) (o : JObj), jget o "id" = none →
        ∃ u, parseUncertainty (wid ++ "_u" ++ toString i) (Json.obj o) = .ok u ∧
          u.id = wid ++ "_u" ++ toString i ∧ u.id ≠ "") := by
  constructor
  · intro ws task st ds st' h
    obtain ⟨h1, _, h3⟩ := call_workers_ok h
    exact ⟨h1, h3⟩
  · intro wid i o hid
    have h : parseUncertainty (wid ++ "_u" ++ toString i) (Json.obj o) =
        .ok { id := wid ++ "_u" ++ toString i,
              description := pyStr (jgetD o "description" (Json.str "")),
              type := pyStr (jgetD o "type" (Json.str "other")),
              impact := pyStr (jgetD o "impact" (Json.str "medium")) } := by
      simp [parseUncertainty, asObj, jgetD, hid, pyStr_str,
            Bind.bind, Except.bind]
    exact ⟨_, h, rfl, @append_mid_ne_empty "_u" (by decide) wid (toString i)⟩

def c6_workers : List WorkerConfig :=
  [{ id := "WorkerA", display_name := "Architect", persona := "x" },
   { id := "WorkerB", display_name := "Pragmatist", persona := "y" }]

def c6_out : List Draft × List Json :=
  match call_workers c6_workers demo_task [Json.obj [], Json.obj []] with
  | .ok p => p
  | .error _ => default

theorem worker_drafts_and_synth_ids_witness :
    (c6_out.1.length = c6_workers.length) ∧
    ((parseUncertainty ("WorkerA" ++ "_u" ++ toString 0) (Json.obj [])).isOk = true) := by
  constructor
  · exact (worker_drafts_and_synth_ids.1 c6_workers demo_task
      [Json.obj [], Json.obj []] c6_out.1 c6_out.2 rfl).1
  · obtain ⟨u, hu, -, -⟩ := worker_drafts_and_synth_ids.2 "WorkerA" 0 [] rfl
    rw [hu]
    rfl

/-! ## C7 -/

/-- C7: the revision-stage prompt pair built for a worker `w` is a function
only of `w`, the task, `w`'s own prior draft and the shared edit plan: two
initial-draft lists that assign the same workers positionwise and agree on
every entry belonging to `w` (other workers' drafts may differ arbitrarily in
content) produce identical system and user prompt strings for `w`, so no
other worker's draft content ever reaches `w`'s revision prompt. -/
theorem revision_prompt_isolation (w : WorkerConfig) (task : Task)
    (plan : EditPlan) (ds1 ds2 : List Draft)
    (h : List.Forall₂ (fun d1 d2 => d1.worker_id = d2.worker_id ∧
          (d1.worker_id = w.id → d1 = d2)) ds1 ds2) :
    revisionPromptFor w task ds1 plan = revisionPromptFor w task ds2 plan := by
  unfold revisionPromptFor draftByWorker
  rw [draftByWorker_congr h none]

def c7_wA : WorkerConfig := { id := "WorkerA", display_name := "Architect", persona := "x" }

def c7_dA : Draft :=
  { draft_id := "WorkerA_v1", worker_id := "WorkerA", version := 1,
    content := "alpha", uncertainties := [] }

def c7_dB : Draft :=
  { draft_id := "WorkerB_v1", worker_id := "WorkerB", version := 1,
    content := "beta", uncertainties := [] }

def c7_dB_changed : Draft :=
  { draft_id := "WorkerB_v1", worker_id := "WorkerB", version := 1,
    content := "totally different draft content", uncertainties := [] }

theorem revision_prompt_isolation_witness :
    revisionPromptFor c7_wA demo_task [c7_dA, c7_dB] demo_plan =
    revisionPromptFor c7_wA demo_task [c7_dA, c7_dB_changed] demo_plan :=
  revision_prompt_isolation c7_wA demo_task demo_plan
    [c7_dA, c7_dB] [c7_dA, c7_dB_changed]
    (List.Forall₂.cons ⟨rfl, fun _ => rfl⟩
      (List.Forall₂.cons ⟨rfl, fun hb => absurd hb (by decide)⟩
        List.Forall₂.nil))

/-! ## C8 -/

/-- C8: in a run whose configured worker ids are pairwise distinct, all draft
ids produced by the pipeline — initial Drafts and Revisions together — are
pairwise distinct; every initial Draft has version 1 and id
`{workerId}_v1`, and every Revision has version 2, id `{workerId}_v2`, and
`from_draft_id` `{workerId}_v1` (its own worker's prior draft). -/
theorem draft_ids_unique (ws : List WorkerConfig) (task : Task)
    (st st1 st' st2 : List Json) (ds : List Draft) (plan : EditPlan)
    (rs : List Revision)
    (hnd : (ws.map WorkerConfig.id).Nodup)
    (hw : call_workers ws task st = .ok (ds, st1))
    (hr : call_revision_workers ws task ds plan st' = .ok (rs, st2)) :
    (ds.map Draft.draft_id ++ rs.map Revision.draft_id).Nodup ∧
    (∀ d ∈ ds, d.version = 1 ∧ d.draft_id = d.worker_id ++ "_v1") ∧
    (∀ r ∈ rs, r.version = 2 ∧ r.draft_id = r.worker_id ++ "_v2" ∧
      r.from_draft_id = r.worker_id ++ "_v1") := by
  obtain ⟨hdl, -, hdp⟩ := call_workers_ok hw
  obtain ⟨hrl, -, hrp⟩ := call_revision_workers_ok hr
  have hmapw : ds.map Draft.worker_id = ws.map WorkerConfig.id := by
    apply List.ext_get (by simp [hdl])
    intro i h1 h2
    simp only [List.get_map]
    exact (hdp i (by simpa using h2) (by simpa using h1)).1
  have hmapd : ds.map Draft.draft_id = ws.map (fun w => w.id ++ "_v1") := by
    apply List.ext_get (by simp [hdl])
    intro i h1 h2
    simp only [List.get_map]
    exact (hdp i (by simpa using h2) (by simpa using h1)).2.1
  have hmapr : rs.map Revision.draft_id = ws.map (fun w => w.id ++ "_v2") := by
    apply List.ext_get (by simp [hrl])
    intro i h1 h2
    simp only [List.get_map]
    obtain ⟨own, hown, hwid, hdid, hver, hfrom⟩ :=
      hrp i (by simpa using h2) (by simpa using h1)
    exact hdid
  have hnd1 : (ds.map Draft.draft_id).Nodup := by
    rw [hmapd, show ws.map (fun w => w.id ++ "_v1") =
          (ws.map WorkerConfig.id).map (fun s => s ++ "_v1") by
        simp [List.map_map, Function.comp]]
    exact hnd.map (fun a b hab => string_append_cancel_right hab)
  have hnd2 : (rs.map Revision.draft_id).Nodup := by
    rw [hmapr, show ws.map (fun w => w.id ++ "_v2") =
          (ws.map WorkerConfig.id).map (fun s => s ++ "_v2") by
        simp [List.map_map, Function.comp]]
    exact hnd.map (fun a b hab => string_append_cancel_right hab)
  have hdisj : (ds.map Draft.draft_id).Disjoint (rs.map Revision.draft_id) := by
    rw [hmapd, hmapr]
    intro a ha hb
    rw [List.mem_map] at ha hb
    obtain ⟨x, -, hxa⟩ := ha
    obtain ⟨y, -, hyb⟩ := hb
    exact v1_ne_v2 x.id y.id (hxa.trans hyb.symm)
  refine ⟨hnd1.append hnd2 hdisj, ?_, ?_⟩
  · intro d hd
    rw [List.mem_iff_get] at hd
    obtain ⟨⟨i, hi⟩, hget⟩ := hd
    obtain ⟨hwid, hdid, hver⟩ := hdp i (by omega) hi
    rw [← hget]
    exact ⟨hver, by rw [hdid, hwid]⟩
  · intro r hrm
    have hndw : (ds.map Draft.worker_id).Nodup := by rw [hmapw]; exact hnd
    rw [List.mem_iff_get] at hrm
    obtain ⟨⟨i, hi⟩, hget⟩ := hrm
    have hiw : i < ws.length := by omega
    have hid : i < ds.length := by omega
    obtain ⟨own, hown, hwid, hdid, hver, hfrom⟩ := hrp i hiw hi
    obtain ⟨hwidd, hdidd, -⟩ := hdp i hiw hid
    have hby : draftByWorker ds ((ds.get ⟨i, hid⟩).worker_id) =
        some (ds.get ⟨i, hid⟩) :=
      draftByWorker_of_nodup hndw (ds.get_mem i hid)
    rw [hwidd] at hby
    rw [hby, Option.some.injEq] at hown
    rw [← hget]
    refine ⟨hver, by rw [hdid, hwid], ?_⟩
    rw [hfrom, ← hown, hdidd, hwid]

def c8_workers : List WorkerConfig :=
  [{ id := "WorkerA", display_name := "Architect", persona := "x" },
   { id := "WorkerB", display_name := "Pragmatist", persona := "y" }]

def c8_drafts : List Draft × List Json :=
  match call_workers c8_workers demo_task [Json.obj [], Json.obj []] with
  | .ok p => p
  | .error _ => default

def c8_revs : List Revision × List Json :=
  match call_revision_workers c8_workers demo_task c8_drafts.1 demo_plan
      [Json.obj [], Json.obj []] with
  | .ok p => p
  | .error _ => default

theorem draft_ids_unique_witness :
    (c8_drafts.1.map Draft.draft_id ++ c8_revs.1.map Revision.draft_id).Nodup :=
  (draft_ids_unique c8_workers demo_task [Json.obj [], Json.obj []] c8_drafts.2
    [Json.obj [], Json.obj []] c8_revs.2 c8_drafts.1 demo_plan c8_revs.1
    (by decide) rfl rfl).1

/-! ## C3 -/

theorem find_eval1 :
    pyNext (default_evaluators.find? (fun e => e.id == "Eval1")) =
      Except.ok { id := "Eval1", role := "FactChecker" } := rfl

theorem find_eval2 :
    pyNext (default_evaluators.find? (fun e => e.id == "Eval2")) =
      Except.ok { id := "Eval2", role := "RubricScorer" } := rfl

theorem find_eval3 :
    pyNext (default_evaluators.find? (fun e => e.id == "Eval3")) =
      Except.ok { id := "Eval3", role := "Synthesizer" } := rfl

theorem find_final_eval :
    pyNext (default_evaluators.find? (fun e => e.id == "FinalJudge")) =
      Except.ok { id := "FinalJudge", role := "Final selection judge" } := rfl

/-- C3: a successful `run_workflow` over a scripted collaborator consumes
exactly `2N + 5` canned responses — 1 normalize, N drafts, 1 fact-check,
1 rubric, 1 synthesize, N revisions, 1 final judge, in that order (`N` being
the number of configured workers) — and returns a RunLog with exactly `N`
revisions whose `final_decision.winner_draft_id` is the string-coerced
`winner_draft_id` of the canned judge response (the `2N + 5`-th script
entry). -/
theorem run_workflow_call_count (up rid model : String) (temp : Rat)
    (seed mt : Option Int) (script : List Json) (log : RunLog)
    (rest : List Json)
    (h : run_workflow up rid model temp seed mt script = .ok (log, rest)) :
    rest = script.drop (2 * default_workers.length + 5) ∧
    log.revisions.length = default_workers.length ∧
    ∃ o : JObj, script[2 * default_workers.length + 4]? = some (Json.obj o) ∧
      log.final_decision.winner_draft_id =
        pyStr (jgetD o "winner_draft_id" (Json.str "")) := by
  unfold run_workflow at h
  simp only [find_eval1, find_eval2, find_eval3, find_final_eval,
             Bind.bind, Except.bind] at h
  cases hn : normalize_task up script with
  | error e => rw [hn] at h; cases h
  | ok p1 =>
  obtain ⟨task, st1⟩ := p1
  simp only [hn] at h
  cases hw : call_workers default_workers task st1 with
  | error e => rw [hw] at h; cases h
  | ok p2 =>
  obtain ⟨initial_drafts, st2⟩ := p2
  simp only [hw] at h
  cases hf : call_factchecker { id := "Eval1", role := "FactChecker" } task
      initial_drafts st2 with
  | error e => rw [hf] at h; cases h
  | ok p3 =>
  obtain ⟨fact_checks, st3⟩ := p3
  simp only [hf] at h
  cases hru : call_rubric_scorer { id := "Eval2", role := "RubricScorer" } task
      initial_drafts fact_checks "initial" st3 with
  | error e => rw [hru] at h; cases h
  | ok p4 =>
  obtain ⟨rubric_initial, st4⟩ := p4
  simp only [hru] at h
  cases hsy : call_synthesizer { id := "Eval3", role := "Synthesizer" } task
      initial_drafts fact_checks rubric_initial st4 with
  | error e => rw [hsy] at h; cases h
  | ok p5 =>
  obtain ⟨edit_plan, st5⟩ := p5
  simp only [hsy] at h
  cases hrv : call_revision_workers default_workers task initial_drafts
      edit_plan st5 with
  | error e => rw [hrv] at h; cases h
  | ok p6 =>
  obtain ⟨revisions, st6⟩ := p6
  simp only [hrv] at h
  cases hfj : call_final_judge { id := "FinalJudge", role := "Final selection judge" }
      task revisions st6 with
  | error e => rw [hfj] at h; cases h
  | ok p7 =>
  obtain ⟨final_decision, st7⟩ := p7
  simp only [hfj] at h
  simp only [Except.ok.injEq, Prod.mk.injEq] at h
  obtain ⟨hlog, hrest⟩ := h
  -- script-position bookkeeping
  obtain ⟨r0, hs0, -⟩ := callStage_ok hn
  obtain ⟨-, hd2, -⟩ := call_workers_ok hw
  obtain ⟨r2, hs2, -⟩ := callStage_ok hf
  obtain ⟨r3, hs3, -⟩ := callStage_ok hru
  obtain ⟨r4, hs4, -⟩ := callStage_ok hsy
  obtain ⟨hrevlen, hd6, -⟩ := call_revision_workers_ok hrv
  obtain ⟨r6, hs6, hp6⟩ := callStage_ok hfj
  have hst1 : st1 = script.drop 1 := by rw [hs0]; rfl
  have hst2 : st2 = script.drop (1 + default_workers.length) := by
    rw [hd2, hst1, List.drop_drop]
  have hst3 : st3 = script.drop (1 + default_workers.length + 1) := by
    have : st2.drop 1 = st3 := by rw [hs2]; rfl
    rw [← this, hst2, List.drop_drop]
  have hst4 : st4 = script.drop (1 + default_workers.length + 1 + 1) := by
    have : st3.drop 1 = st4 := by rw [hs3]; rfl
    rw [← this, hst3, List.drop_drop]
  have hst5 : st5 = script.drop (1 + default_workers.length + 1 + 1 + 1) := by
    have : st4.drop 1 = st5 := by rw [hs4]; rfl
    rw [← this, hst4, List.drop_drop]
  have hst6 : st6 =
      script.drop (1 + default_workers.length + 1 + 1 + 1 + default_workers.length) := by
    rw [hd6, hst5, List.drop_drop]
  have hst7 : st7 =
      script.drop
        (1 + default_workers.length + 1 + 1 + 1 + default_workers.length + 1) := by
    have : st6.drop 1 = st7 := by rw [hs6]; rfl
    rw [← this, hst6, List.drop_drop]
  refine ⟨?_, ?_, ?_⟩
  · rw [← hrest, hst7]
    congr 1
  · rw [← hlog]
    exact hrevlen
  · -- the canned judge response is an object and supplies the winner
    cases hre : parse_rubric_evaluation "FinalJudge" r6 with
    | error e => simp [parseFinalDecisionResp, hre, Bind.bind, Except.bind] at hp6
    | ok re =>
      cases ho : asObj r6 with
      | error e =>
        simp [parseFinalDecisionResp, hre, ho, Bind.bind, Except.bind] at hp6
      | ok o =>
        have hr6 : r6 = Json.obj o := by
          cases r6 with
          | null => exact absurd ho (by simp [asObj])
          | bool b => exact absurd ho (by simp [asObj])
          | int n => exact absurd ho (by simp [asObj])
          | float q => exact absurd ho (by simp [asObj])
          | str s => exact absurd ho (by simp [asObj])
          | arr xs => exact absurd ho (by simp [asObj])
          | obj kvs =>
            simp only [asObj, Except.ok.injEq] at ho
            rw [ho]
        refine ⟨o, ?_, ?_⟩
        · have hdrop6 : script.drop (2 * default_workers.length + 4) =
              r6 :: st7 := by
            rw [show 2 * default_workers.length + 4 =
                  1 + default_workers.length + 1 + 1 + 1 + default_workers.length
                  by omega, ← hst6, hs6]
          have h0 : (script.drop (2 * default_workers.length + 4))[0]? =
              some (Json.obj o) := by rw [hdrop6, hr6]; simp
          rw [List.getElem?_drop] at h0
          simpa using h0
        · simp only [parseFinalDecisionResp, hre, ho, Bind.bind, Except.bind,
                     Except.ok.injEq] at hp6
          rw [← hlog]
          simp only [← hp6]

def c3_script : List Json := List.replicate 13 (Json.obj [])

def c3_out : RunLog × List Json :=
  match run_workflow "p" "r1" "m" 0 none none c3_script with
  | .ok p => p
  | .error _ => default

theorem run_workflow_call_count_witness :
    c3_out.2 = c3_script.drop (2 * default_workers.length + 5) ∧
    c3_out.1.revisions.length = default_workers.length := by
  have h := run_workflow_call_count "p" "r1" "m" 0 none none c3_script
    c3_out.1 c3_out.2 rfl
  exact ⟨h.1, h.2.1⟩

end AgentFlow
